import Mathlib

/-! gbemuc: the address decoder (`gb/mmu/mmu.c`), the I/O register block (`gb/io.c`),
the disassembler (`gb/disasm.c`) and the character buffer (`char_buf.c`)

A shallow embedding of the memory dispatch of the emulator, of the instruction
printer and of the circular byte buffer.

Conventions of the embedding.

* C integers are natural numbers.  Where C converts an `int` expression to
  `uint16_t` or `uint8_t` (a parameter of that type, an assignment to an
  object of that type) the conversion is written out: `u16`, `u8`.
* Arrays are functions from the index to the cell.
* A pointer to a `struct gb_mmu_entry` is an `EntryPtr`: either a slot of the
  file-static array `mmu_entries` or the address of a cartridge controller
  entry, which lives outside `mmu.c`.  `NULL` is `none`.
* A handler pointer of an entry is an `Option`; calling through a `NULL`
  handler is a fault, so the dispatch functions return an `Option`.
* Code that `mmu.c` and `io.c` call but do not define (the GPU and CPU handlers,
  the cartridge controllers, `gb_emu_is_cgb`, `gb_gpu_ctl_change`, and the
  constants `GB_IO_BIOS_FLAG` and `GB_REG_PC`) is a field of `Env`.  Read handlers
  are observers: they return a byte and leave the emulator as it is.
* `DEBUG_PRINTF` writes to the console only and is left out.
* A `char *` text is a `String`; `sprintf` and `memcpy` of the C library are
  modelled for the uses made of them.
-/

namespace Gbemuc

/-! ## Integer conversions -/

/-- Conversion of an `int` value to `uint16_t`. -/
def u16 (i : Int) : Nat := (i % 65536).toNat

/-- Conversion of a non-negative `int` value to `uint8_t`. -/
def u8 (n : Nat) : Nat := n % 256

/-! ## Emulator state -/

/-- The registers and memories of `struct gb_gpu` (`include/gb/gpu.h`).  The
frame buffer, the keypad snapshots, the object palettes, the line buffer and the
display callbacks are reached by none of the functions embedded here and are
part of `gb_emu.rest`. -/
structure gb_gpu where
  clock : Int
  mode : Nat
  ctl : Nat
  status : Nat
  scroll_x : Nat
  scroll_y : Nat
  window_x : Nat
  window_y : Nat
  cur_line : Nat
  cur_line_cmp : Nat
  key_line : Nat
  key_select : Nat
  back_palette : Nat
  vram : Nat → Nat
  oam : Nat → Nat

/-- The fields of `emu->mmu` used by `mmu.c` and `io.c`.  The two controller
fields are pointers to entries outside `mmu.c`. -/
structure gb_mmu where
  mbc_controller : Option Nat
  eram_controller : Option Nat
  bios_flag : Nat
  cgb_wram_bank_no : Nat
  wram : Nat → Nat → Nat
  zram : Nat → Nat

/-- The 16-bit register views `emu->cpu.r.w[]`. -/
structure gb_cpu where
  w : Nat → Nat

/-- The emulator instance `struct gb_emu`; `rest` is the state of the parts that
are not embedded (cartridge banks, interrupt registers, configuration). -/
structure gb_emu (α : Type) where
  cpu : gb_cpu
  mmu : gb_mmu
  gpu : gb_gpu
  rest : α

/-- One `struct gb_mmu_entry`: the inclusive range and the two handlers.  The
fifth initialiser is `NULL` in every entry of `mmu_entries` and is not used by
`mmu.c`. -/
structure gb_mmu_entry (α : Type) where
  low : Nat
  high : Nat
  read8 : Option (gb_emu α → Nat → Nat → Nat)
  write8 : Option (gb_emu α → Nat → Nat → Nat → gb_emu α)

/-- The code and constants that `mmu.c` and `io.c` use and that are declared
elsewhere. -/
structure Env (α : Type) where
  controller : Nat → gb_mmu_entry α
  gb_gpu_vram_read8 : gb_emu α → Nat → Nat → Nat
  gb_gpu_vram_write8 : gb_emu α → Nat → Nat → Nat → gb_emu α
  gb_gpu_sprite_read8 : gb_emu α → Nat → Nat → Nat
  gb_gpu_sprite_write8 : gb_emu α → Nat → Nat → Nat → gb_emu α
  gb_cpu_int_read8 : gb_emu α → Nat → Nat → Nat
  gb_cpu_int_write8 : gb_emu α → Nat → Nat → Nat → gb_emu α
  gb_emu_is_cgb : gb_emu α → Bool
  gb_gpu_ctl_change : gb_emu α → Nat → gb_emu α
  GB_IO_BIOS_FLAG : Nat
  GB_REG_PC : Nat

/-! ## Constants of `include/gb/gpu.h` -/

def GB_IO_GPU_CTL : Nat := 0xFF40
def GB_IO_GPU_STATUS : Nat := 0xFF41
def GB_IO_GPU_SCRY : Nat := 0xFF42
def GB_IO_GPU_SCRX : Nat := 0xFF43
def GB_IO_GPU_LY : Nat := 0xFF44

/-! ## Storage handlers of `mmu.c` -/

section handlers
variable {α : Type}

def wram_bank0_read8 (emu : gb_emu α) (addr _low : Nat) : Nat :=
  emu.mmu.wram 0 addr

/-- Assignment `emu->mmu.wram[bank][addr] = val`. -/
def wram_store (emu : gb_emu α) (bank addr val : Nat) : gb_emu α :=
  { emu with mmu := { emu.mmu with
      wram := fun b i => if b = bank ∧ i = addr then val else emu.mmu.wram b i } }

def wram_bank0_write8 (emu : gb_emu α) (addr _low val : Nat) : gb_emu α :=
  wram_store emu 0 addr val

def wram_bank1_read8 (env : Env α) (emu : gb_emu α) (addr _low : Nat) : Nat :=
  if !env.gb_emu_is_cgb emu || emu.mmu.cgb_wram_bank_no == 0 then
    emu.mmu.wram 1 addr
  else
    emu.mmu.wram emu.mmu.cgb_wram_bank_no addr

def wram_bank1_write8 (env : Env α) (emu : gb_emu α) (addr _low val : Nat) : gb_emu α :=
  if !env.gb_emu_is_cgb emu || emu.mmu.cgb_wram_bank_no == 0 then
    wram_store emu 1 addr val
  else
    wram_store emu emu.mmu.cgb_wram_bank_no addr val

def zram_read8 (emu : gb_emu α) (addr _low : Nat) : Nat :=
  emu.mmu.zram addr

def zram_write8 (emu : gb_emu α) (addr _low val : Nat) : gb_emu α :=
  { emu with mmu := { emu.mmu with
      zram := fun i => if i = addr then val else emu.mmu.zram i } }

def zero_read8 (_emu : gb_emu α) (_addr _low : Nat) : Nat := 0

def zero_write8 (emu : gb_emu α) (_addr _low _val : Nat) : gb_emu α := emu

/-! ## I/O register block (`io.c`) -/

def gb_emu_io_read8 (emu : gb_emu α) (addr low : Nat) : Nat :=
  let sel := addr + low
  if sel = GB_IO_GPU_CTL then emu.gpu.ctl
  else if sel = GB_IO_GPU_STATUS then
    let ret := u8 (emu.gpu.status &&& 0xF8)
    u8 (ret ||| emu.gpu.mode)
  else if sel = GB_IO_GPU_SCRY then emu.gpu.scroll_y
  else if sel = GB_IO_GPU_SCRX then emu.gpu.scroll_x
  else if sel = GB_IO_GPU_LY then emu.gpu.cur_line
  else 0

def gb_emu_io_write8 (env : Env α) (emu : gb_emu α) (addr low byte : Nat) : gb_emu α :=
  let sel := addr + low
  if sel = env.GB_IO_BIOS_FLAG then
    if byte = 1 then { emu with mmu := { emu.mmu with bios_flag := 1 } } else emu
  else if sel = GB_IO_GPU_CTL then env.gb_gpu_ctl_change emu byte
  else if sel = GB_IO_GPU_STATUS then
    let ctl1 := u8 (emu.gpu.ctl &&& 0x04)
    { emu with gpu := { emu.gpu with ctl := u8 (ctl1 ||| byte) } }
  else if sel = GB_IO_GPU_SCRY then { emu with gpu := { emu.gpu with scroll_y := byte } }
  else if sel = GB_IO_GPU_SCRX then { emu with gpu := { emu.gpu with scroll_x := byte } }
  else if sel = GB_IO_GPU_LY then { emu with gpu := { emu.gpu with cur_line := 0 } }
  else emu

end handlers

/-! ## The region table -/

def GB_MMU_BANK0 : Nat := 0
def GB_MMU_BANK1 : Nat := 1
def GB_MMU_VRAM : Nat := 2
def GB_MMU_WRAM_BANK0 : Nat := 3
def GB_MMU_WRAM_BANK1 : Nat := 4
def GB_MMU_WRAM_ECHO_BANK0 : Nat := 5
def GB_MMU_WRAM_ECHO_BANK1 : Nat := 6
def GB_MMU_SPRITE : Nat := 7
def GB_MMU_EMPTY : Nat := 8
def GB_MMU_IO : Nat := 9
def GB_MMU_ZRAM : Nat := 10
def GB_MMU_INT : Nat := 11

/-- Number of slots of `mmu_entries`: the largest designated index plus one. -/
def mmu_entries_len : Nat := 12

/-- A value of type `struct gb_mmu_entry *` other than `NULL`. -/
inductive EntryPtr where
  | table (i : Nat)
  | ctrl (p : Nat)
  deriving DecidableEq, Repr

section decoder
variable {α : Type}

/-- The array `mmu_entries`, by slot.  The slots `GB_MMU_BANK0` and
`GB_MMU_BANK1` have no initialiser and are zero-filled. -/
def mmu_entries (env : Env α) (i : Nat) : gb_mmu_entry α :=
  if i = GB_MMU_VRAM then
    ⟨0x8000, 0x9FFF, some env.gb_gpu_vram_read8, some env.gb_gpu_vram_write8⟩
  else if i = GB_MMU_WRAM_BANK0 then
    ⟨0xC000, 0xCFFF, some wram_bank0_read8, some wram_bank0_write8⟩
  else if i = GB_MMU_WRAM_BANK1 then
    ⟨0xD000, 0xDFFF, some (wram_bank1_read8 env), some (wram_bank1_write8 env)⟩
  else if i = GB_MMU_WRAM_ECHO_BANK0 then
    ⟨0xE000, 0xEFFF, some wram_bank0_read8, some wram_bank0_write8⟩
  else if i = GB_MMU_WRAM_ECHO_BANK1 then
    ⟨0xF000, 0xFDFF, some (wram_bank1_read8 env), some (wram_bank1_write8 env)⟩
  else if i = GB_MMU_SPRITE then
    ⟨0xFE00, 0xFE9F, some env.gb_gpu_sprite_read8, some env.gb_gpu_sprite_write8⟩
  else if i = GB_MMU_EMPTY then
    ⟨0xFEA0, 0xFEFF, some zero_read8, some zero_write8⟩
  else if i = GB_MMU_IO then
    ⟨0xFF00, 0xFF7F, some gb_emu_io_read8, some (gb_emu_io_write8 env)⟩
  else if i = GB_MMU_ZRAM then
    ⟨0xFF80, 0xFFFE, some zram_read8, some zram_write8⟩
  else if i = GB_MMU_INT then
    ⟨0xFFFF, 0xFFFF, some env.gb_cpu_int_read8, some env.gb_cpu_int_write8⟩
  else ⟨0, 0, none, none⟩

/-- The entry a pointer points to. -/
def deref (env : Env α) : EntryPtr → gb_mmu_entry α
  | .table i => mmu_entries env i
  | .ctrl p => env.controller p

def get_mmu_entry (emu : gb_emu α) (addr : Nat) : Option EntryPtr :=
  let a := u8 (addr >>> 12)
  match a with
  | 0x0 | 0x1 | 0x2 | 0x3 | 0x4 | 0x5 | 0x6 | 0x7 =>
    emu.mmu.mbc_controller.map EntryPtr.ctrl
  | 0x8 | 0x9 => some (.table GB_MMU_VRAM)
  | 0xA | 0xB => emu.mmu.eram_controller.map EntryPtr.ctrl
  | 0xC => some (.table GB_MMU_WRAM_BANK0)
  | 0xD => some (.table GB_MMU_WRAM_BANK1)
  | 0xE => some (.table GB_MMU_WRAM_ECHO_BANK0)
  | 0xF =>
    let b := u8 ((addr >>> 8) &&& 0xF)
    if b ≤ 0xD then some (.table GB_MMU_WRAM_ECHO_BANK1)
    else if b = 0xE then
      let c := u8 ((addr >>> 4) &&& 0xF)
      if c < 0xa then some (.table GB_MMU_SPRITE) else some (.table GB_MMU_EMPTY)
    else if b = 0xF then
      let c := u8 ((addr >>> 4) &&& 0xF)
      if c < 0x8 then some (.table GB_MMU_IO)
      else if addr ≠ 0xFFFF then some (.table GB_MMU_ZRAM)
      else some (.table GB_MMU_INT)
    else none
  | _ => none

/-- The call `(entry->read8) (emu, addr, low)`, result of type `uint8_t`. -/
def call_read8 (entry : gb_mmu_entry α) (emu : gb_emu α) (addr low : Nat) : Option Nat :=
  match entry.read8 with
  | some f => some (u8 (f emu addr low))
  | none => none

/-- The call `(entry->write8) (emu, addr, low, val)`. -/
def call_write8 (entry : gb_mmu_entry α) (emu : gb_emu α) (addr low val : Nat) :
    Option (gb_emu α) :=
  match entry.write8 with
  | some f => some (f emu addr low val)
  | none => none

def gb_emu_read8 (env : Env α) (emu : gb_emu α) (addr : Nat) : Option Nat :=
  match get_mmu_entry emu addr with
  | some p =>
    let entry := deref env p
    call_read8 entry emu (u16 ((addr : Int) - entry.low)) entry.low
  | none => some 0

def gb_emu_read16 (env : Env α) (emu : gb_emu α) (addr : Nat) : Option Nat :=
  match get_mmu_entry emu addr with
  | some p =>
    let entry := deref env p
    match call_read8 entry emu (u16 ((addr : Int) - entry.low)) entry.low,
          call_read8 entry emu (u16 ((addr : Int) - entry.low + 1)) entry.low with
    | some lo, some hi => some (lo ||| (hi <<< 8))
    | _, _ => none
  | none => some 0

def gb_emu_write8 (env : Env α) (emu : gb_emu α) (addr byte : Nat) : Option (gb_emu α) :=
  match get_mmu_entry emu addr with
  | some p =>
    let entry := deref env p
    call_write8 entry emu (u16 ((addr : Int) - entry.low)) entry.low (u8 byte)
  | none => some emu

def gb_emu_write16 (env : Env α) (emu : gb_emu α) (addr word : Nat) : Option (gb_emu α) :=
  match get_mmu_entry emu addr with
  | some p =>
    let entry := deref env p
    match call_write8 entry emu (u16 ((addr : Int) - entry.low)) entry.low (u8 (word &&& 0xFF)) with
    | some emu1 =>
      call_write8 entry emu1 (u16 ((addr : Int) - entry.low + 1)) entry.low (u8 (word >>> 8))
    | none => none
  | none => some emu

/-- Assignment to `emu->cpu.r.w[i]`, a `uint16_t`. -/
def set_w (emu : gb_emu α) (i : Nat) (v : Int) : gb_emu α :=
  { emu with cpu := { emu.cpu with w := fun j => if j = i then u16 v else emu.cpu.w j } }

def gb_emu_next_pc8 (env : Env α) (emu : gb_emu α) : Option Nat × gb_emu α :=
  let addr := emu.cpu.w env.GB_REG_PC
  let emu1 := set_w emu env.GB_REG_PC ((emu.cpu.w env.GB_REG_PC : Int) + 1)
  (gb_emu_read8 env emu1 addr, emu1)

def gb_emu_next_pc16 (env : Env α) (emu : gb_emu α) : Option Nat × gb_emu α :=
  let addr := emu.cpu.w env.GB_REG_PC
  let emu1 := set_w emu env.GB_REG_PC ((emu.cpu.w env.GB_REG_PC : Int) + 2)
  (gb_emu_read16 env emu1 addr, emu1)

def gb_emu_addr_is_rom (_emu : gb_emu α) (addr : Nat) : Bool :=
  let a := addr >>> 12
  decide (a < 8)

/-! ## Specification-level definitions -/

/-- A slot of `mmu_entries` is populated when its initialiser gave it handlers. -/
def populated (entry : gb_mmu_entry α) : Prop :=
  entry.read8.isSome = true ∧ entry.write8.isSome = true

/-- The 16-bit read as the specification words it: two 8-bit reads, at `addr` and
at `addr + 1`, each dispatched on its own, composed low byte first. -/
def gb_emu_read16_spec (env : Env α) (emu : gb_emu α) (addr : Nat) : Option Nat :=
  match gb_emu_read8 env emu addr, gb_emu_read8 env emu ((addr + 1) % 65536) with
  | some lo, some hi => some (lo ||| (hi <<< 8))
  | _, _ => none

/-- The 16-bit write as the specification words it: the low byte written at
`addr`, then the high byte at `addr + 1`, each dispatched on its own. -/
def gb_emu_write16_spec (env : Env α) (emu : gb_emu α) (addr word : Nat) :
    Option (gb_emu α) :=
  match gb_emu_write8 env emu addr (word &&& 0xFF) with
  | some emu1 => gb_emu_write8 env emu1 ((addr + 1) % 65536) (word >>> 8)
  | none => none

/-- The CGB mode is fixed: a store to work RAM does not change what
`gb_emu_is_cgb` answers. -/
def cgb_mode_fixed (env : Env α) : Prop :=
  ∀ (emu : gb_emu α) (bank addr val : Nat),
    env.gb_emu_is_cgb (wram_store emu bank addr val) = env.gb_emu_is_cgb emu

/-- A sequence of 8-bit writes `(address, byte)`, performed in order. -/
def write8_seq (env : Env α) (emu : gb_emu α) : List (Nat × Nat) → Option (gb_emu α)
  | [] => some emu
  | (a, v) :: ws =>
    match gb_emu_write8 env emu a v with
    | some emu1 => write8_seq env emu1 ws
    | none => none

end decoder

/-! ## A concrete emulator instance

A cartridge without a mapper: a ROM controller that reads `0x00` everywhere and
an external-RAM controller that reads `0xFF`, both ignoring writes; video memory
and the interrupt-enable byte kept in `gpu.vram`, `gpu.oam` and `gpu.key_line`;
the CGB flag kept in `rest`. -/

def demo_rom : gb_mmu_entry Bool :=
  ⟨0x0000, 0x7FFF, some (fun _ _ _ => 0x00), some (fun e _ _ _ => e)⟩

def demo_eram : gb_mmu_entry Bool :=
  ⟨0xA000, 0xBFFF, some (fun _ _ _ => 0xFF), some (fun e _ _ _ => e)⟩

def demo_env : Env Bool where
  controller := fun p => if p = 0 then demo_rom else demo_eram
  gb_gpu_vram_read8 := fun e addr _ => e.gpu.vram addr
  gb_gpu_vram_write8 := fun e addr _ val =>
    { e with gpu := { e.gpu with vram := fun i => if i = addr then val else e.gpu.vram i } }
  gb_gpu_sprite_read8 := fun e addr _ => e.gpu.oam addr
  gb_gpu_sprite_write8 := fun e addr _ val =>
    { e with gpu := { e.gpu with oam := fun i => if i = addr then val else e.gpu.oam i } }
  gb_cpu_int_read8 := fun e _ _ => e.gpu.key_line
  gb_cpu_int_write8 := fun e _ _ val => { e with gpu := { e.gpu with key_line := val } }
  gb_emu_is_cgb := fun e => e.rest
  gb_gpu_ctl_change := fun e new_ctl => { e with gpu := { e.gpu with ctl := new_ctl } }
  GB_IO_BIOS_FLAG := 0xFF50
  GB_REG_PC := 0

def demo_gpu : gb_gpu where
  clock := 0
  mode := 0
  ctl := 0
  status := 0
  scroll_x := 0
  scroll_y := 0
  window_x := 0
  window_y := 0
  cur_line := 0
  cur_line_cmp := 0
  key_line := 0
  key_select := 0
  back_palette := 0
  vram := fun _ => 0
  oam := fun _ => 0

def demo_mmu : gb_mmu where
  mbc_controller := some 0
  eram_controller := some 1
  bios_flag := 0
  cgb_wram_bank_no := 0
  wram := fun _ _ => 0
  zram := fun _ => 1

/-- A non-CGB emulator with the cartridge installed, work RAM cleared and every
zero-page byte equal to 1, `PC = 0x0100`. -/
def demo_emu : gb_emu Bool where
  cpu := ⟨fun _ => 0x0100⟩
  mmu := demo_mmu
  gpu := demo_gpu
  rest := false

/-- The same emulator with no cartridge controller installed. -/
def bare_emu : gb_emu Bool :=
  { demo_emu with mmu := { demo_mmu with mbc_controller := none, eram_controller := none } }

/-! ## Further constants of `include/gb/gpu.h` -/

def GB_SCREEN_WIDTH : Nat := 160
def GB_SCREEN_HEIGHT : Nat := 144

def GB_GPU_CLOCK_HBLANK : Nat := 204
def GB_GPU_CLOCK_VBLANK : Nat := 456
def GB_GPU_CLOCK_OAM : Nat := 80
def GB_GPU_CLOCK_VRAM : Nat := 172

def GB_GPU_VBLANK_LENGTH : Nat := 10

def GB_GPU_MODE_HBLANK : Nat := 0
def GB_GPU_MODE_VBLANK : Nat := 1
def GB_GPU_MODE_OAM : Nat := 2
def GB_GPU_MODE_VRAM : Nat := 3

/-! ## Sequences of I/O writes -/

/-- A sequence of calls `gb_emu_io_write8 (emu, addr, low, byte)`, performed in
order; an element is `(addr, low, byte)`. -/
def io_write8_seq {α : Type} (env : Env α) (emu : gb_emu α) :
    List (Nat × Nat × Nat) → gb_emu α
  | [] => emu
  | (addr, low, byte) :: ws => io_write8_seq env (gb_emu_io_write8 env emu addr low byte) ws

/-- The read handlers of the environment do not look at the CPU registers: an
8-bit or 16-bit read gives the same result whatever `emu->cpu.r.w[]` holds. -/
def reads_ignore_cpu {α : Type} (env : Env α) : Prop :=
  ∀ (emu : gb_emu α) (i : Nat) (v : Int) (addr : Nat),
    gb_emu_read8 env (set_w emu i v) addr = gb_emu_read8 env emu addr ∧
    gb_emu_read16 env (set_w emu i v) addr = gb_emu_read16 env emu addr

/-! ## The disassembler (`gb/disasm.c`) -/

/-- The operand class of a decode entry (the anonymous `enum` of
`struct opcode_format`). -/
inductive opcode_type where
  | OPCODE_NONE
  | OPCODE_16BIT
  | OPCODE_8BIT
  deriving DecidableEq, Repr

structure opcode_format where
  format : String
  type : opcode_type
  deriving DecidableEq, Repr

def OP_FORM_NONE (form : String) : opcode_format := ⟨form, .OPCODE_NONE⟩

def OP_FORM_ONE (form : String) : opcode_format := ⟨form, .OPCODE_8BIT⟩

def OP_FORM_16 (form : String) : opcode_format := ⟨form, .OPCODE_16BIT⟩

def opcode_decode_format_str_init : List opcode_format := [
  -- [0x00] =
  OP_FORM_NONE ("NOP"),
  OP_FORM_16  ("LD BC, 0x%04x"),
  OP_FORM_NONE ("LD (BC), A"),
  OP_FORM_NONE ("INC BC"),
  OP_FORM_NONE ("INC B"),
  OP_FORM_NONE ("DEC B"),
  OP_FORM_ONE ("LD B, 0x%02x"),
  OP_FORM_NONE ("RLCA"),
  OP_FORM_16  ("LD (0x%04x), SP"),
  OP_FORM_NONE ("ADD HL, BC"),
  OP_FORM_NONE ("LD A, (BC)"),
  OP_FORM_NONE ("DEC BC"),
  OP_FORM_NONE ("INC C"),
  OP_FORM_NONE ("DEC C"),
  OP_FORM_ONE ("LD C, 0x%02x"),
  OP_FORM_NONE ("RRCA"),
  -- [0x10] =
  OP_FORM_NONE ("STOP 0"),
  OP_FORM_16  ("LD DE, 0x%04x"),
  OP_FORM_NONE ("LD (DE), A"),
  OP_FORM_NONE ("INC DE"),
  OP_FORM_NONE ("INC D"),
  OP_FORM_NONE ("DEC D"),
  OP_FORM_ONE ("LD D, 0x%02x"),
  OP_FORM_NONE ("RLA"),
  OP_FORM_ONE ("JR 0x%02x"),
  OP_FORM_NONE ("ADD HL, DE"),
  OP_FORM_NONE ("LD A, (DE)"),
  OP_FORM_NONE ("DEC DE"),
  OP_FORM_NONE ("INC E"),
  OP_FORM_NONE ("DEC E"),
  OP_FORM_ONE ("LD E, 0x%02x"),
  OP_FORM_NONE ("RRA"),
  -- [0x20] =
  OP_FORM_ONE ("JR NZ, 0x%02x"),
  OP_FORM_16  ("LD HL, 0x%04x"),
  OP_FORM_NONE ("LD (HL+), A"),
  OP_FORM_NONE ("INC HL"),
  OP_FORM_NONE ("INC H"),
  OP_FORM_NONE ("DEC H"),
  OP_FORM_ONE ("LD H, 0x%02x"),
  OP_FORM_NONE ("DAA"),
  OP_FORM_ONE ("JR Z, 0x%02x"),
  OP_FORM_NONE ("ADD HL, HL"),
  OP_FORM_NONE ("LD A, (HL+)"),
  OP_FORM_NONE ("DEC HL"),
  OP_FORM_NONE ("INC L"),
  OP_FORM_NONE ("DEC L"),
  OP_FORM_ONE ("LD L, 0x%02x"),
  OP_FORM_NONE ("CPL"),
  -- [0x30] =
  OP_FORM_ONE ("JR NC, 0x%02x"),
  OP_FORM_16  ("LD SP, 0x%04x"),
  OP_FORM_NONE ("LD (HL-), A"),
  OP_FORM_NONE ("INC SP"),
  OP_FORM_NONE ("INC (HL)"),
  OP_FORM_NONE ("DEC (HL)"),
  OP_FORM_ONE ("LD (HL), 0x%02x"),
  OP_FORM_NONE ("SCF"),
  OP_FORM_ONE ("JR C, 0x%02x"),
  OP_FORM_NONE ("ADD HL, SP"),
  OP_FORM_NONE ("LD A, (HL-)"),
  OP_FORM_NONE ("DEC SP"),
  OP_FORM_NONE ("INC A"),
  OP_FORM_NONE ("DEC A"),
  OP_FORM_ONE ("LD A, 0x%02x"),
  OP_FORM_NONE ("CCF"),
  -- [0x40] =
  OP_FORM_NONE ("LD B, B"),
  OP_FORM_NONE ("LD B, C"),
  OP_FORM_NONE ("LD B, D"),
  OP_FORM_NONE ("LD B, E"),
  OP_FORM_NONE ("LD B, H"),
  OP_FORM_NONE ("LD B, L"),
  OP_FORM_NONE ("LD B, (HL)"),
  OP_FORM_NONE ("LD B, A"),
  OP_FORM_NONE ("LD C, B"),
  OP_FORM_NONE ("LD C, C"),
  OP_FORM_NONE ("LD C, D"),
  OP_FORM_NONE ("LD C, E"),
  OP_FORM_NONE ("LD C, H"),
  OP_FORM_NONE ("LD C, L"),
  OP_FORM_NONE ("LD C, (HL)"),
  OP_FORM_NONE ("LD C, A"),
  -- [0x50] =
  OP_FORM_NONE ("LD D, B"),
  OP_FORM_NONE ("LD D, C"),
  OP_FORM_NONE ("LD D, D"),
  OP_FORM_NONE ("LD D, E"),
  OP_FORM_NONE ("LD D, H"),
  OP_FORM_NONE ("LD D, L"),
  OP_FORM_NONE ("LD D, (HL)"),
  OP_FORM_NONE ("LD D, A"),
  OP_FORM_NONE ("LD E, B"),
  OP_FORM_NONE ("LD E, C"),
  OP_FORM_NONE ("LD E, D"),
  OP_FORM_NONE ("LD E, E"),
  OP_FORM_NONE ("LD E, H"),
  OP_FORM_NONE ("LD E, L"),
  OP_FORM_NONE ("LD E, (HL)"),
  OP_FORM_NONE ("LD E, A"),
  -- [0x60] =
  OP_FORM_NONE ("LD H, B"),
  OP_FORM_NONE ("LD H, C"),
  OP_FORM_NONE ("LD H, D"),
  OP_FORM_NONE ("LD H, E"),
  OP_FORM_NONE ("LD H, H"),
  OP_FORM_NONE ("LD H, L"),
  OP_FORM_NONE ("LD H, (HL)"),
  OP_FORM_NONE ("LD H, A"),
  OP_FORM_NONE ("LD L, B"),
  OP_FORM_NONE ("LD L, C"),
  OP_FORM_NONE ("LD L, D"),
  OP_FORM_NONE ("LD L, E"),
  OP_FORM_NONE ("LD L, H"),
  OP_FORM_NONE ("LD L, L"),
  OP_FORM_NONE ("LD L, (HL)"),
  OP_FORM_NONE ("LD L, A"),
  -- [0x70] =
  OP_FORM_NONE ("LD (HL), B"),
  OP_FORM_NONE ("LD (HL), C"),
  OP_FORM_NONE ("LD (HL), D"),
  OP_FORM_NONE ("LD (HL), E"),
  OP_FORM_NONE ("LD (HL), H"),
  OP_FORM_NONE ("LD (HL), L"),
  OP_FORM_NONE ("HALT"),
  OP_FORM_NONE ("LD (HL), A"),
  OP_FORM_NONE ("LD A, B"),
  OP_FORM_NONE ("LD A, C"),
  OP_FORM_NONE ("LD A, D"),
  OP_FORM_NONE ("LD A, E"),
  OP_FORM_NONE ("LD A, H"),
  OP_FORM_NONE ("LD A, L"),
  OP_FORM_NONE ("LD A, (HL)"),
  OP_FORM_NONE ("LD A, A"),
  -- [0x80] =
  OP_FORM_NONE ("ADD A, B"),
  OP_FORM_NONE ("ADD A, C"),
  OP_FORM_NONE ("ADD A, D"),
  OP_FORM_NONE ("ADD A, E"),
  OP_FORM_NONE ("ADD A, H"),
  OP_FORM_NONE ("ADD A, L"),
  OP_FORM_NONE ("ADD A, (HL)"),
  OP_FORM_NONE ("ADD A, A"),
  OP_FORM_NONE ("ADC A, B"),
  OP_FORM_NONE ("ADC A, C"),
  OP_FORM_NONE ("ADC A, D"),
  OP_FORM_NONE ("ADC A, E"),
  OP_FORM_NONE ("ADC A, H"),
  OP_FORM_NONE ("ADC A, L"),
  OP_FORM_NONE ("ADC A, (HL)"),
  OP_FORM_NONE ("ADC A, A"),
  -- [0x90] =
  OP_FORM_NONE ("SUB B"),
  OP_FORM_NONE ("SUB C"),
  OP_FORM_NONE ("SUB D"),
  OP_FORM_NONE ("SUB E"),
  OP_FORM_NONE ("SUB H"),
  OP_FORM_NONE ("SUB L"),
  OP_FORM_NONE ("SUB (HL)"),
  OP_FORM_NONE ("SUB A"),
  OP_FORM_NONE ("SBC A, B"),
  OP_FORM_NONE ("SBC A, C"),
  OP_FORM_NONE ("SBC A, D"),
  OP_FORM_NONE ("SBC A, E"),
  OP_FORM_NONE ("SBC A, H"),
  OP_FORM_NONE ("SBC A, L"),
  OP_FORM_NONE ("SBC A, (HL)"),
  OP_FORM_NONE ("SBC A, A"),
  -- [0xA0] =
  OP_FORM_NONE ("AND B"),
  OP_FORM_NONE ("AND C"),
  OP_FORM_NONE ("AND D"),
  OP_FORM_NONE ("AND E"),
  OP_FORM_NONE ("AND H"),
  OP_FORM_NONE ("AND L"),
  OP_FORM_NONE ("AND (HL)"),
  OP_FORM_NONE ("AND A"),
  OP_FORM_NONE ("XOR B"),
  OP_FORM_NONE ("XOR C"),
  OP_FORM_NONE ("XOR D"),
  OP_FORM_NONE ("XOR E"),
  OP_FORM_NONE ("XOR H"),
  OP_FORM_NONE ("XOR L"),
  OP_FORM_NONE ("XOR (HL)"),
  OP_FORM_NONE ("XOR A"),
  -- [0xB0] =
  OP_FORM_NONE ("OR B"),
  OP_FORM_NONE ("OR C"),
  OP_FORM_NONE ("OR D"),
  OP_FORM_NONE ("OR E"),
  OP_FORM_NONE ("OR H"),
  OP_FORM_NONE ("OR L"),
  OP_FORM_NONE ("OR (HL)"),
  OP_FORM_NONE ("OR A"),
  OP_FORM_NONE ("CP B"),
  OP_FORM_NONE ("CP C"),
  OP_FORM_NONE ("CP D"),
  OP_FORM_NONE ("CP E"),
  OP_FORM_NONE ("CP H"),
  OP_FORM_NONE ("CP L"),
  OP_FORM_NONE ("CP (HL)"),
  OP_FORM_NONE ("CP A"),
  -- [0xC0] =
  OP_FORM_NONE ("RET NZ"),
  OP_FORM_NONE ("POP BC"),
  OP_FORM_16  ("JP NZ, 0x%04x"),
  OP_FORM_16  ("JP 0x%04x"),
  OP_FORM_16  ("CALL NZ, 0x%04x"),
  OP_FORM_NONE ("PUSH BC"),
  OP_FORM_ONE ("ADD A, 0x%02x"),
  OP_FORM_NONE ("RST 0x00"),
  OP_FORM_NONE ("RET Z"),
  OP_FORM_NONE ("RET"),
  OP_FORM_16  ("JP Z, 0x%04x"),
  OP_FORM_NONE ("CB"),
  OP_FORM_16  ("CALL Z, 0x%04x"),
  OP_FORM_16  ("CALL 0x%04x"),
  OP_FORM_ONE ("ADC A, 0x%02x"),
  OP_FORM_NONE ("RST 0x08"),
  -- [0xD0] =
  OP_FORM_NONE ("RET NC"),
  OP_FORM_NONE ("POP DE"),
  OP_FORM_16  ("JP NC, 0x%04x"),
  OP_FORM_NONE (""),
  OP_FORM_16  ("CALL NC, 0x%04x"),
  OP_FORM_NONE ("PUSH DE"),
  OP_FORM_ONE ("SUB 0x%02x"),
  OP_FORM_NONE ("RST 0x10"),
  OP_FORM_NONE ("RET C"),
  OP_FORM_NONE ("RETI"),
  OP_FORM_16  ("JP C, 0x%04x"),
  OP_FORM_NONE (""),
  OP_FORM_16  ("CALL C, 0x%04x"),
  OP_FORM_NONE (""),
  OP_FORM_ONE ("SBC A, 0x%02x"),
  OP_FORM_NONE ("RST 0x18"),
  -- [0xE0] =
  OP_FORM_ONE ("LD (0x00FF + 0x%02x), A"),
  OP_FORM_NONE ("POP HL"),
  OP_FORM_NONE ("LD (C), A"),
  OP_FORM_NONE (""),
  OP_FORM_NONE (""),
  OP_FORM_NONE ("PUSH HL"),
  OP_FORM_ONE ("AND 0x%02x"),
  OP_FORM_NONE ("RST 0x20"),
  OP_FORM_ONE ("AND SP, 0x%02x"),
  OP_FORM_NONE ("JP (HL)"),
  OP_FORM_16  ("LD (0x%04x), A"),
  OP_FORM_NONE (""),
  OP_FORM_NONE (""),
  OP_FORM_NONE (""),
  OP_FORM_ONE ("XOR 0x%02x"),
  OP_FORM_NONE ("RST 0x28"),
  -- [0xF0] =
  OP_FORM_ONE ("LD A, (0x00FF + 0x%02x)"),
  OP_FORM_NONE ("POP HL"),
  OP_FORM_NONE ("LD (C), A"),
  OP_FORM_NONE ("DI"),
  OP_FORM_NONE (""),
  OP_FORM_NONE ("PUSH AF"),
  OP_FORM_ONE ("OR 0x%02x"),
  OP_FORM_NONE ("RST 0x30"),
  OP_FORM_ONE ("LD HL, SP + 0x%02x"),
  OP_FORM_NONE ("LD SP, HL"),
  OP_FORM_16  ("LD A, (0x%04x"),
  OP_FORM_NONE ("EI"),
  OP_FORM_NONE (""),
  OP_FORM_NONE (""),
  OP_FORM_ONE ("CP 0x%02x"),
  OP_FORM_NONE ("RST 0x38")
]

def opcode_cb_decode_format_str_init : List opcode_format := [
  -- [0x00] =
  OP_FORM_NONE ("RLC B"),
  OP_FORM_NONE ("RLC C"),
  OP_FORM_NONE ("RLC D"),
  OP_FORM_NONE ("RLC E"),
  OP_FORM_NONE ("RLC H"),
  OP_FORM_NONE ("RLC L"),
  OP_FORM_NONE ("RLC (HL)"),
  OP_FORM_NONE ("RLC A"),
  OP_FORM_NONE ("RRC B"),
  OP_FORM_NONE ("RRC C"),
  OP_FORM_NONE ("RRC D"),
  OP_FORM_NONE ("RRC E"),
  OP_FORM_NONE ("RRC H"),
  OP_FORM_NONE ("RRC L"),
  OP_FORM_NONE ("RRC (HL)"),
  OP_FORM_NONE ("RRC A"),
  -- [0x10] =
  OP_FORM_NONE ("RL B"),
  OP_FORM_NONE ("RL C"),
  OP_FORM_NONE ("RL D"),
  OP_FORM_NONE ("RL E"),
  OP_FORM_NONE ("RL H"),
  OP_FORM_NONE ("RL L"),
  OP_FORM_NONE ("RL (HL)"),
  OP_FORM_NONE ("RL A"),
  OP_FORM_NONE ("RR B"),
  OP_FORM_NONE ("RR C"),
  OP_FORM_NONE ("RR D"),
  OP_FORM_NONE ("RR E"),
  OP_FORM_NONE ("RR H"),
  OP_FORM_NONE ("RR L"),
  OP_FORM_NONE ("RR (HL)"),
  OP_FORM_NONE ("RR A"),
  -- [0x20] =
  OP_FORM_NONE ("SLA B"),
  OP_FORM_NONE ("SLA C"),
  OP_FORM_NONE ("SLA D"),
  OP_FORM_NONE ("SLA E"),
  OP_FORM_NONE ("SLA H"),
  OP_FORM_NONE ("SLA L"),
  OP_FORM_NONE ("SLA (HL)"),
  OP_FORM_NONE ("SLA A"),
  OP_FORM_NONE ("SRA B"),
  OP_FORM_NONE ("SRA C"),
  OP_FORM_NONE ("SRA D"),
  OP_FORM_NONE ("SRA E"),
  OP_FORM_NONE ("SRA H"),
  OP_FORM_NONE ("SRA L"),
  OP_FORM_NONE ("SRA (HL)"),
  OP_FORM_NONE ("SRA A"),
  -- [0x30] =
  OP_FORM_NONE ("SWAP B"),
  OP_FORM_NONE ("SWAP C"),
  OP_FORM_NONE ("SWAP D"),
  OP_FORM_NONE ("SWAP E"),
  OP_FORM_NONE ("SWAP H"),
  OP_FORM_NONE ("SWAP L"),
  OP_FORM_NONE ("SWAP (HL)"),
  OP_FORM_NONE ("SWAP A"),
  OP_FORM_NONE ("SRL B"),
  OP_FORM_NONE ("SRL C"),
  OP_FORM_NONE ("SRL D"),
  OP_FORM_NONE ("SRL E"),
  OP_FORM_NONE ("SRL H"),
  OP_FORM_NONE ("SRL L"),
  OP_FORM_NONE ("SRL (HL)"),
  OP_FORM_NONE ("SRL A"),
  -- [0x40] =
  OP_FORM_NONE ("BIT 0, B"),
  OP_FORM_NONE ("BIT 0, C"),
  OP_FORM_NONE ("BIT 0, D"),
  OP_FORM_NONE ("BIT 0, E"),
  OP_FORM_NONE ("BIT 0, H"),
  OP_FORM_NONE ("BIT 0, L"),
  OP_FORM_NONE ("BIT 0, (HL)"),
  OP_FORM_NONE ("BIT 1, A"),
  OP_FORM_NONE ("BIT 1, B"),
  OP_FORM_NONE ("BIT 1, C"),
  OP_FORM_NONE ("BIT 1, D"),
  OP_FORM_NONE ("BIT 1, E"),
  OP_FORM_NONE ("BIT 1, H"),
  OP_FORM_NONE ("BIT 1, L"),
  OP_FORM_NONE ("BIT 1, (HL)"),
  OP_FORM_NONE ("BIT 1, A"),
  -- [0x50] =
  OP_FORM_NONE ("BIT 2, B"),
  OP_FORM_NONE ("BIT 2, C"),
  OP_FORM_NONE ("BIT 2, D"),
  OP_FORM_NONE ("BIT 2, E"),
  OP_FORM_NONE ("BIT 2, H"),
  OP_FORM_NONE ("BIT 2, L"),
  OP_FORM_NONE ("BIT 2, (HL)"),
  OP_FORM_NONE ("BIT 3, A"),
  OP_FORM_NONE ("BIT 3, B"),
  OP_FORM_NONE ("BIT 3, C"),
  OP_FORM_NONE ("BIT 3, D"),
  OP_FORM_NONE ("BIT 3, E"),
  OP_FORM_NONE ("BIT 3, H"),
  OP_FORM_NONE ("BIT 3, L"),
  OP_FORM_NONE ("BIT 3, (HL)"),
  OP_FORM_NONE ("BIT 3, A"),
  -- [0x60] =
  OP_FORM_NONE ("BIT 4, B"),
  OP_FORM_NONE ("BIT 4, C"),
  OP_FORM_NONE ("BIT 4, D"),
  OP_FORM_NONE ("BIT 4, E"),
  OP_FORM_NONE ("BIT 4, H"),
  OP_FORM_NONE ("BIT 4, L"),
  OP_FORM_NONE ("BIT 4, (HL)"),
  OP_FORM_NONE ("BIT 5, A"),
  OP_FORM_NONE ("BIT 5, B"),
  OP_FORM_NONE ("BIT 5, C"),
  OP_FORM_NONE ("BIT 5, D"),
  OP_FORM_NONE ("BIT 5, E"),
  OP_FORM_NONE ("BIT 5, H"),
  OP_FORM_NONE ("BIT 5, L"),
  OP_FORM_NONE ("BIT 5, (HL)"),
  OP_FORM_NONE ("BIT 5, A"),
  -- [0x70] =
  OP_FORM_NONE ("BIT 6, B"),
  OP_FORM_NONE ("BIT 6, C"),
  OP_FORM_NONE ("BIT 6, D"),
  OP_FORM_NONE ("BIT 6, E"),
  OP_FORM_NONE ("BIT 6, H"),
  OP_FORM_NONE ("BIT 6, L"),
  OP_FORM_NONE ("BIT 6, (HL)"),
  OP_FORM_NONE ("BIT 7, A"),
  OP_FORM_NONE ("BIT 7, B"),
  OP_FORM_NONE ("BIT 7, C"),
  OP_FORM_NONE ("BIT 7, D"),
  OP_FORM_NONE ("BIT 7, E"),
  OP_FORM_NONE ("BIT 7, H"),
  OP_FORM_NONE ("BIT 7, L"),
  OP_FORM_NONE ("BIT 7, (HL)"),
  OP_FORM_NONE ("BIT 7, A"),
  -- [0x80] =
  OP_FORM_NONE ("RES 0, B"),
  OP_FORM_NONE ("RES 0, C"),
  OP_FORM_NONE ("RES 0, D"),
  OP_FORM_NONE ("RES 0, E"),
  OP_FORM_NONE ("RES 0, H"),
  OP_FORM_NONE ("RES 0, L"),
  OP_FORM_NONE ("RES 0, (HL)"),
  OP_FORM_NONE ("RES 0, A"),
  OP_FORM_NONE ("RES 1, B"),
  OP_FORM_NONE ("RES 1, C"),
  OP_FORM_NONE ("RES 1, D"),
  OP_FORM_NONE ("RES 1, E"),
  OP_FORM_NONE ("RES 1, H"),
  OP_FORM_NONE ("RES 1, L"),
  OP_FORM_NONE ("RES 1, (HL)"),
  OP_FORM_NONE ("RES 1, A"),
  -- [0x90] =
  OP_FORM_NONE ("RES 2, B"),
  OP_FORM_NONE ("RES 2, C"),
  OP_FORM_NONE ("RES 2, D"),
  OP_FORM_NONE ("RES 2, E"),
  OP_FORM_NONE ("RES 2, H"),
  OP_FORM_NONE ("RES 2, L"),
  OP_FORM_NONE ("RES 2, (HL)"),
  OP_FORM_NONE ("RES 2, A"),
  OP_FORM_NONE ("RES 3, B"),
  OP_FORM_NONE ("RES 3, C"),
  OP_FORM_NONE ("RES 3, D"),
  OP_FORM_NONE ("RES 3, E"),
  OP_FORM_NONE ("RES 3, H"),
  OP_FORM_NONE ("RES 3, L"),
  OP_FORM_NONE ("RES 3, (HL)"),
  OP_FORM_NONE ("RES 3, A"),
  -- [0xA0] =
  OP_FORM_NONE ("RES 4, B"),
  OP_FORM_NONE ("RES 4, C"),
  OP_FORM_NONE ("RES 4, D"),
  OP_FORM_NONE ("RES 4, E"),
  OP_FORM_NONE ("RES 4, H"),
  OP_FORM_NONE ("RES 4, L"),
  OP_FORM_NONE ("RES 4, (HL)"),
  OP_FORM_NONE ("RES 4, A"),
  OP_FORM_NONE ("RES 5, B"),
  OP_FORM_NONE ("RES 5, C"),
  OP_FORM_NONE ("RES 5, D"),
  OP_FORM_NONE ("RES 5, E"),
  OP_FORM_NONE ("RES 5, H"),
  OP_FORM_NONE ("RES 5, L"),
  OP_FORM_NONE ("RES 5, (HL)"),
  OP_FORM_NONE ("RES 5, A"),
  -- [0xB0] =
  OP_FORM_NONE ("RES 6, B"),
  OP_FORM_NONE ("RES 6, C"),
  OP_FORM_NONE ("RES 6, D"),
  OP_FORM_NONE ("RES 6, E"),
  OP_FORM_NONE ("RES 6, H"),
  OP_FORM_NONE ("RES 6, L"),
  OP_FORM_NONE ("RES 6, (HL)"),
  OP_FORM_NONE ("RES 6, A"),
  OP_FORM_NONE ("RES 7, B"),
  OP_FORM_NONE ("RES 7, C"),
  OP_FORM_NONE ("RES 7, D"),
  OP_FORM_NONE ("RES 7, E"),
  OP_FORM_NONE ("RES 7, H"),
  OP_FORM_NONE ("RES 7, L"),
  OP_FORM_NONE ("RES 7, (HL)"),
  OP_FORM_NONE ("RES 7, A"),
  -- [0xC0] =
  OP_FORM_NONE ("SET 0, B"),
  OP_FORM_NONE ("SET 0, C"),
  OP_FORM_NONE ("SET 0, D"),
  OP_FORM_NONE ("SET 0, E"),
  OP_FORM_NONE ("SET 0, H"),
  OP_FORM_NONE ("SET 0, L"),
  OP_FORM_NONE ("SET 0, (HL)"),
  OP_FORM_NONE ("SET 0, A"),
  OP_FORM_NONE ("SET 1, B"),
  OP_FORM_NONE ("SET 1, C"),
  OP_FORM_NONE ("SET 1, D"),
  OP_FORM_NONE ("SET 1, E"),
  OP_FORM_NONE ("SET 1, H"),
  OP_FORM_NONE ("SET 1, L"),
  OP_FORM_NONE ("SET 1, (HL)"),
  OP_FORM_NONE ("SET 1, A"),
  -- [0xD0] =
  OP_FORM_NONE ("SET 2, B"),
  OP_FORM_NONE ("SET 2, C"),
  OP_FORM_NONE ("SET 2, D"),
  OP_FORM_NONE ("SET 2, E"),
  OP_FORM_NONE ("SET 2, H"),
  OP_FORM_NONE ("SET 2, L"),
  OP_FORM_NONE ("SET 2, (HL)"),
  OP_FORM_NONE ("SET 2, A"),
  OP_FORM_NONE ("SET 3, B"),
  OP_FORM_NONE ("SET 3, C"),
  OP_FORM_NONE ("SET 3, D"),
  OP_FORM_NONE ("SET 3, E"),
  OP_FORM_NONE ("SET 3, H"),
  OP_FORM_NONE ("SET 3, L"),
  OP_FORM_NONE ("SET 3, (HL)"),
  OP_FORM_NONE ("SET 3, A"),
  -- [0xE0] =
  OP_FORM_NONE ("SET 4, B"),
  OP_FORM_NONE ("SET 4, C"),
  OP_FORM_NONE ("SET 4, D"),
  OP_FORM_NONE ("SET 4, E"),
  OP_FORM_NONE ("SET 4, H"),
  OP_FORM_NONE ("SET 4, L"),
  OP_FORM_NONE ("SET 4, (HL)"),
  OP_FORM_NONE ("SET 4, A"),
  OP_FORM_NONE ("SET 5, B"),
  OP_FORM_NONE ("SET 5, C"),
  OP_FORM_NONE ("SET 5, D"),
  OP_FORM_NONE ("SET 5, E"),
  OP_FORM_NONE ("SET 5, H"),
  OP_FORM_NONE ("SET 5, L"),
  OP_FORM_NONE ("SET 5, (HL)"),
  OP_FORM_NONE ("SET 5, A"),
  -- [0xF0] =
  OP_FORM_NONE ("SET 6, B"),
  OP_FORM_NONE ("SET 6, C"),
  OP_FORM_NONE ("SET 6, D"),
  OP_FORM_NONE ("SET 6, E"),
  OP_FORM_NONE ("SET 6, H"),
  OP_FORM_NONE ("SET 6, L"),
  OP_FORM_NONE ("SET 6, (HL)"),
  OP_FORM_NONE ("SET 6, A"),
  OP_FORM_NONE ("SET 7, B"),
  OP_FORM_NONE ("SET 7, C"),
  OP_FORM_NONE ("SET 7, D"),
  OP_FORM_NONE ("SET 7, E"),
  OP_FORM_NONE ("SET 7, H"),
  OP_FORM_NONE ("SET 7, L"),
  OP_FORM_NONE ("SET 7, (HL)"),
  OP_FORM_NONE ("SET 7, A")
]
/-- The array `opcode_decode_format_str[256]`, by index. -/
def opcode_decode_format_str (i : Nat) : opcode_format :=
  opcode_decode_format_str_init.getD i ⟨"", .OPCODE_NONE⟩

/-- The array `opcode_cb_decode_format_str[256]`, by index. -/
def opcode_cb_decode_format_str (i : Nat) : opcode_format :=
  opcode_cb_decode_format_str_init.getD i ⟨"", .OPCODE_NONE⟩

/-- Lower-case hexadecimal digits of `v`, padded with zeros on the left to at
least `width` characters: the conversion `%0<width>x` of the C library. -/
def hex_padded (width v : Nat) : List Char :=
  let ds := Nat.toDigits 16 v
  List.replicate (width - ds.length) '0' ++ ds

/-- The C library call `sprintf (buf, format, args...)` for the formats of the
two tables: ordinary characters are copied, a conversion `%0<width>x` with a
one-digit width takes the next argument. -/
def sprintf_chars : List Char → List Nat → List Char
  | [], _ => []
  | '%' :: '0' :: w :: 'x' :: rest, v :: args =>
    hex_padded (w.toNat - '0'.toNat) v ++ sprintf_chars rest args
  | c :: rest, args => c :: sprintf_chars rest args

def sprintf (format : String) (args : List Nat) : String :=
  String.mk (sprintf_chars format.data args)

/-- The function `gb_disasm_inst (buf, bytes)`; the text written to `buf` is the
result. -/
def gb_disasm_inst (bytes : Nat → Nat) : String :=
  let opcode := u8 (bytes 0)
  let format :=
    if opcode ≠ 0xCB then opcode_decode_format_str opcode
    else opcode_cb_decode_format_str opcode
  match format.type with
  | .OPCODE_NONE => sprintf format.format []
  | .OPCODE_8BIT => sprintf format.format [bytes 1]
  | .OPCODE_16BIT => sprintf format.format [bytes 1 + (u16 (bytes 2) <<< 8)]

/-- The instruction bytes `bs[0], bs[1], ...` as the array `bytes`. -/
def inst_bytes (bs : List Nat) : Nat → Nat :=
  fun i => bs.getD i 0

/-! ## The character buffer (`char_buf.c`) -/

/-- The fields of `struct char_buf`: the backing array, its capacity, the index
of the oldest unread byte and the number of unread bytes.  Sizes and indices
are natural numbers. -/
structure char_buf where
  buffer : Nat → Nat
  len : Nat
  start_pos : Nat
  buf_len : Nat

/-- The C library call `memcpy (dst + doff, src + soff, n)`: the destination
array afterwards. -/
def memcpy (dst : Nat → Nat) (doff : Nat) (src : Nat → Nat) (soff n : Nat) : Nat → Nat :=
  fun i => if doff ≤ i ∧ i < doff + n then src (soff + (i - doff)) else dst i

def char_buf_init (nbuffer : Nat → Nat) (buf_size : Nat) : char_buf :=
  { buffer := nbuffer, len := buf_size, start_pos := 0, buf_len := 0 }

/-- The function `char_buf_write (buf, data, data_len)`.  The message printed
when `buf_len` exceeds `len` goes to the console only and is left out. -/
def char_buf_write (buf : char_buf) (data : Nat → Nat) (data_len : Nat) : char_buf :=
  let end_pos := (buf.start_pos + buf.buf_len) % buf.len
  if buf.len - end_pos ≥ data_len then
    { buf with
      buffer := memcpy buf.buffer end_pos data 0 data_len
      buf_len := buf.buf_len + data_len }
  else
    let first := buf.len - end_pos
    let buf1 : char_buf :=
      if first > 0 then
        { buf with
          buffer := memcpy buf.buffer end_pos data 0 first
          buf_len := buf.buf_len + first }
      else buf
    let data_len1 := if first > 0 then data_len - first else data_len
    let data_off := if first > 0 then first else 0
    { buf1 with
      buffer := memcpy buf1.buffer 0 data data_off data_len1
      buf_len := buf1.buf_len + data_len1 }

/-- The function `char_buf_read (buf, data, data_len)`: the returned count, the
destination array afterwards, and the buffer afterwards. -/
def char_buf_read (buf : char_buf) (data : Nat → Nat) (data_len : Nat) :
    Nat × (Nat → Nat) × char_buf :=
  if buf.buf_len = 0 then (0, data, buf)
  else
    let data_len0 := if buf.buf_len < data_len then buf.buf_len else data_len
    let orig_size := data_len0
    if buf.len - buf.start_pos ≥ data_len0 then
      let data1 := memcpy data 0 buf.buffer buf.start_pos data_len0
      let start1 := buf.start_pos + data_len0
      (orig_size, data1,
        { buf with
          start_pos := if start1 = buf.len then 0 else start1
          buf_len := buf.buf_len - data_len0 })
    else
      let first := buf.len - buf.start_pos
      let data1 := if first > 0 then memcpy data 0 buf.buffer buf.start_pos first else data
      let data_off := if first > 0 then first else 0
      let data_len1 := if first > 0 then data_len0 - first else data_len0
      let buf_len1 := if first > 0 then buf.buf_len - first else buf.buf_len
      let data2 := memcpy data1 data_off buf.buffer 0 data_len1
      (orig_size, data2,
        { buf with
          start_pos := data_len1
          buf_len := buf_len1 - data_len1 })

/-- Well-formedness of a character buffer. -/
def char_buf_wf (buf : char_buf) : Prop :=
  0 < buf.len ∧ buf.start_pos < buf.len ∧ buf.buf_len ≤ buf.len

/-- The unread bytes of a buffer, oldest first. -/
def char_buf_contents (buf : char_buf) : List Nat :=
  (List.range buf.buf_len).map (fun i => buf.buffer ((buf.start_pos + i) % buf.len))

/-- A byte sequence as the array `data`. -/
def data_of (d : List Nat) : Nat → Nat :=
  fun i => d.getD i 0

/-- A buffer of capacity 4 holding the unread bytes 7, 8 at the positions 3, 0. -/
def demo_buf : char_buf :=
  { buffer := fun i => if i = 3 then 7 else if i = 0 then 8 else 0
    len := 4, start_pos := 3, buf_len := 2 }

/-! ## Work-RAM bank selection -/

/-- The work-RAM bank behind 0xD000-0xDFFF as the specification words it:
`cgb_wram_bank_no` in CGB mode when that number is not 0, bank 1 otherwise. -/
def wram_bank1_sel {α : Type} (env : Env α) (emu : gb_emu α) : Nat :=
  if env.gb_emu_is_cgb emu = true ∧ emu.mmu.cgb_wram_bank_no ≠ 0 then emu.mmu.cgb_wram_bank_no
  else 1

/-- The concrete emulator in CGB mode with work-RAM bank 3 selected. -/
def cgb_emu : gb_emu Bool :=
  { demo_emu with rest := true, mmu := { demo_mmu with cgb_wram_bank_no := 3 } }

/-! ## The character buffer, byte at a time -/

def char_buf_write_char (buf : char_buf) (data : Nat) : char_buf :=
  let end_pos := (buf.start_pos + buf.buf_len) % buf.len
  { buf with
    buffer := fun i => if i = end_pos then data else buf.buffer i
    buf_len := buf.buf_len + 1 }

/-- The function `char_buf_read_char (buf)`: the returned `char` (-1 on an empty
buffer) and the buffer afterwards. -/
def char_buf_read_char (buf : char_buf) : Int × char_buf :=
  if buf.buf_len = 0 then (-1, buf)
  else
    let data := buf.buffer buf.start_pos
    let start1 := buf.start_pos + 1
    (data,
      { buf with
        start_pos := if start1 = buf.len then 0 else start1
        buf_len := buf.buf_len - 1 })

/-- The bytes of `d` written one at a time, in order, with
`char_buf_write_char`. -/
def char_buf_write_chars (buf : char_buf) (d : List Nat) : char_buf :=
  d.foldl char_buf_write_char buf

/-- A buffer of capacity 4 holding the unread byte 9 at the position 2: two
more bytes wrap past the end of the array. -/
def wrap_buf : char_buf :=
  { buffer := fun i => if i = 2 then 9 else 0
    len := 4, start_pos := 2, buf_len := 1 }

/-! ## The extended-prefix table as the specification words it -/

/-- The registers selected by the low three bits of an extended opcode. -/
def cb_registers : List String := ["B", "C", "D", "E", "H", "L", "(HL)", "A"]

/-- The rotate and shift operations selected by bits 3-5 of an extended opcode
below 0x40. -/
def cb_operations : List String := ["RLC", "RRC", "RL", "RR", "SLA", "SRA", "SWAP", "SRL"]

/-- The template the regular pattern gives for the extended opcode `b`: the
operation selected by `b >> 3` applied to the register selected by `b & 7`. -/
def cb_template_spec (b : Nat) : String :=
  let reg := cb_registers.getD (b &&& 7) ""
  if b < 0x40 then cb_operations.getD (b >>> 3) "" ++ " " ++ reg
  else
    let op := if b < 0x80 then "BIT" else if b < 0xC0 then "RES" else "SET"
    op ++ " " ++ String.mk (Nat.toDigits 10 ((b >>> 3) &&& 7)) ++ ", " ++ reg

/-- The extended opcodes whose table entry is not the regular one. -/
def cb_irregular : List Nat :=
  (List.range 256).filter
    (fun b => decide (opcode_cb_decode_format_str b ≠ OP_FORM_NONE (cb_template_spec b)))

/-! ## Arithmetic facts -/

theorem and_0xF (x : Nat) : x &&& 0xF = x % 16 :=
  Nat.and_pow_two_sub_one_eq_mod x 4

theorem and_0xFF (x : Nat) : x &&& 0xFF = x % 256 :=
  Nat.and_pow_two_sub_one_eq_mod x 8

theorem u8_of_lt {v : Nat} (h : v < 256) : u8 v = v :=
  Nat.mod_eq_of_lt h

theorem u16_sub {a low : Nat} (h1 : low ≤ a) (h2 : a < 65536) :
    u16 ((a : Int) - low) = a - low := by
  unfold u16; omega

theorem u16_sub_succ {a low : Nat} (h1 : low ≤ a) (h2 : a + 1 < 65536) :
    u16 ((a : Int) - low + 1) = a - low + 1 := by
  unfold u16; omega

theorem u16_succ_sub (a low : Nat) :
    u16 (((a + 1 : Nat) : Int) - low) = u16 ((a : Int) - low + 1) := by
  unfold u16; congr 2; push_cast; ring

/-- A 16-bit word is its low byte or-ed with its high byte shifted left by 8. -/
theorem word_of_bytes {w : Nat} (h : w < 65536) :
    u8 (u8 (w &&& 0xFF)) ||| (u8 (u8 (w >>> 8)) <<< 8) = w := by
  simp only [u8, and_0xFF, Nat.shiftRight_eq_div_pow, Nat.shiftLeft_eq, Nat.mod_mod]
  have hlow : w % 256 < 2 ^ 8 := by omega
  rw [Nat.lor_comm, Nat.mul_comm, ← Nat.mul_add_lt_is_or hlow]
  omega

/-! ## Address decoding, window by window -/

section decode
variable {α : Type}

theorem get_mmu_entry_rom (e : gb_emu α) (a : Nat) (h : a < 0x8000) :
    get_mmu_entry e a = e.mmu.mbc_controller.map EntryPtr.ctrl := by
  have hq : a / 4096 < 8 := by omega
  simp only [get_mmu_entry, u8, Nat.shiftRight_eq_div_pow]
  norm_num
  generalize a / 4096 = q at hq
  interval_cases q <;> rfl

theorem get_mmu_entry_vram (e : gb_emu α) (a : Nat) (h1 : 0x8000 ≤ a) (h2 : a ≤ 0x9FFF) :
    get_mmu_entry e a = some (.table GB_MMU_VRAM) := by
  have hq : 8 ≤ a / 4096 ∧ a / 4096 < 10 := by omega
  simp only [get_mmu_entry, u8, Nat.shiftRight_eq_div_pow]
  norm_num
  generalize a / 4096 = q at hq
  obtain ⟨hq1, hq2⟩ := hq
  interval_cases q <;> rfl

theorem get_mmu_entry_eram (e : gb_emu α) (a : Nat) (h1 : 0xA000 ≤ a) (h2 : a ≤ 0xBFFF) :
    get_mmu_entry e a = e.mmu.eram_controller.map EntryPtr.ctrl := by
  have hq : 10 ≤ a / 4096 ∧ a / 4096 < 12 := by omega
  simp only [get_mmu_entry, u8, Nat.shiftRight_eq_div_pow]
  norm_num
  generalize a / 4096 = q at hq
  obtain ⟨hq1, hq2⟩ := hq
  interval_cases q <;> rfl

theorem get_mmu_entry_wram0 (e : gb_emu α) (a : Nat) (h1 : 0xC000 ≤ a) (h2 : a ≤ 0xCFFF) :
    get_mmu_entry e a = some (.table GB_MMU_WRAM_BANK0) := by
  have hq : a / 4096 = 12 := by omega
  simp only [get_mmu_entry, u8, Nat.shiftRight_eq_div_pow]
  norm_num [hq]

theorem get_mmu_entry_wram1 (e : gb_emu α) (a : Nat) (h1 : 0xD000 ≤ a) (h2 : a ≤ 0xDFFF) :
    get_mmu_entry e a = some (.table GB_MMU_WRAM_BANK1) := by
  have hq : a / 4096 = 13 := by omega
  simp only [get_mmu_entry, u8, Nat.shiftRight_eq_div_pow]
  norm_num [hq]

theorem get_mmu_entry_echo0 (e : gb_emu α) (a : Nat) (h1 : 0xE000 ≤ a) (h2 : a ≤ 0xEFFF) :
    get_mmu_entry e a = some (.table GB_MMU_WRAM_ECHO_BANK0) := by
  have hq : a / 4096 = 14 := by omega
  simp only [get_mmu_entry, u8, Nat.shiftRight_eq_div_pow]
  norm_num [hq]

theorem get_mmu_entry_echo1 (e : gb_emu α) (a : Nat) (h1 : 0xF000 ≤ a) (h2 : a ≤ 0xFDFF) :
    get_mmu_entry e a = some (.table GB_MMU_WRAM_ECHO_BANK1) := by
  have hq : a / 4096 = 15 := by omega
  have hb : a / 256 % 16 ≤ 13 := by omega
  simp only [get_mmu_entry, u8, Nat.shiftRight_eq_div_pow, and_0xF]
  norm_num [hq]
  omega

theorem get_mmu_entry_sprite (e : gb_emu α) (a : Nat) (h1 : 0xFE00 ≤ a) (h2 : a ≤ 0xFE9F) :
    get_mmu_entry e a = some (.table GB_MMU_SPRITE) := by
  have hq : a / 4096 = 15 := by omega
  have hb : a / 256 % 16 = 14 := by omega
  have hc : a / 16 % 16 < 10 := by omega
  simp only [get_mmu_entry, u8, Nat.shiftRight_eq_div_pow, and_0xF]
  norm_num [hq, hb]
  omega

theorem get_mmu_entry_empty (e : gb_emu α) (a : Nat) (h1 : 0xFEA0 ≤ a) (h2 : a ≤ 0xFEFF) :
    get_mmu_entry e a = some (.table GB_MMU_EMPTY) := by
  have hq : a / 4096 = 15 := by omega
  have hb : a / 256 % 16 = 14 := by omega
  have hc : ¬ a / 16 % 16 < 10 := by omega
  simp only [get_mmu_entry, u8, Nat.shiftRight_eq_div_pow, and_0xF]
  norm_num [hq, hb]
  omega

theorem get_mmu_entry_io (e : gb_emu α) (a : Nat) (h1 : 0xFF00 ≤ a) (h2 : a ≤ 0xFF7F) :
    get_mmu_entry e a = some (.table GB_MMU_IO) := by
  have hq : a / 4096 = 15 := by omega
  have hb : a / 256 % 16 = 15 := by omega
  have hc : a / 16 % 16 < 8 := by omega
  simp only [get_mmu_entry, u8, Nat.shiftRight_eq_div_pow, and_0xF]
  norm_num [hq, hb]
  omega

theorem get_mmu_entry_zram (e : gb_emu α) (a : Nat) (h1 : 0xFF80 ≤ a) (h2 : a ≤ 0xFFFE) :
    get_mmu_entry e a = some (.table GB_MMU_ZRAM) := by
  have hq : a / 4096 = 15 := by omega
  have hb : a / 256 % 16 = 15 := by omega
  have hc : ¬ a / 16 % 16 < 8 := by omega
  have hne : a ≠ 0xFFFF := by omega
  simp only [get_mmu_entry, u8, Nat.shiftRight_eq_div_pow, and_0xF]
  norm_num [hq, hb]
  rw [if_neg (by omega), if_neg hne]

theorem get_mmu_entry_int (e : gb_emu α) :
    get_mmu_entry e 0xFFFF = some (.table GB_MMU_INT) := by
  rfl

/-! ## The slots of the table -/

theorem mmu_entries_vram (env : Env α) : mmu_entries env GB_MMU_VRAM =
    ⟨0x8000, 0x9FFF, some env.gb_gpu_vram_read8, some env.gb_gpu_vram_write8⟩ := rfl

theorem mmu_entries_wram0 (env : Env α) : mmu_entries env GB_MMU_WRAM_BANK0 =
    ⟨0xC000, 0xCFFF, some wram_bank0_read8, some wram_bank0_write8⟩ := rfl

theorem mmu_entries_wram1 (env : Env α) : mmu_entries env GB_MMU_WRAM_BANK1 =
    ⟨0xD000, 0xDFFF, some (wram_bank1_read8 env), some (wram_bank1_write8 env)⟩ := rfl

theorem mmu_entries_echo0 (env : Env α) : mmu_entries env GB_MMU_WRAM_ECHO_BANK0 =
    ⟨0xE000, 0xEFFF, some wram_bank0_read8, some wram_bank0_write8⟩ := rfl

theorem mmu_entries_echo1 (env : Env α) : mmu_entries env GB_MMU_WRAM_ECHO_BANK1 =
    ⟨0xF000, 0xFDFF, some (wram_bank1_read8 env), some (wram_bank1_write8 env)⟩ := rfl

theorem mmu_entries_sprite (env : Env α) : mmu_entries env GB_MMU_SPRITE =
    ⟨0xFE00, 0xFE9F, some env.gb_gpu_sprite_read8, some env.gb_gpu_sprite_write8⟩ := rfl

theorem mmu_entries_empty (env : Env α) : mmu_entries env GB_MMU_EMPTY =
    ⟨0xFEA0, 0xFEFF, some zero_read8, some zero_write8⟩ := rfl

theorem mmu_entries_io (env : Env α) : mmu_entries env GB_MMU_IO =
    ⟨0xFF00, 0xFF7F, some gb_emu_io_read8, some (gb_emu_io_write8 env)⟩ := rfl

theorem mmu_entries_zram (env : Env α) : mmu_entries env GB_MMU_ZRAM =
    ⟨0xFF80, 0xFFFE, some zram_read8, some zram_write8⟩ := rfl

theorem mmu_entries_int (env : Env α) : mmu_entries env GB_MMU_INT =
    ⟨0xFFFF, 0xFFFF, some env.gb_cpu_int_read8, some env.gb_cpu_int_write8⟩ := rfl

/-- The populated slots of `mmu_entries` have pairwise disjoint ranges. -/
theorem mmu_entries_disjoint (env : Env α) (a i j : Nat)
    (hi : i < mmu_entries_len) (hj : j < mmu_entries_len)
    (pi : populated (mmu_entries env i)) (pj : populated (mmu_entries env j))
    (hil : (mmu_entries env i).low ≤ a) (hih : a ≤ (mmu_entries env i).high)
    (hjl : (mmu_entries env j).low ≤ a) (hjh : a ≤ (mmu_entries env j).high) :
    j = i := by
  unfold mmu_entries_len at hi hj
  interval_cases i <;> interval_cases j <;>
    simp [mmu_entries, populated, GB_MMU_VRAM, GB_MMU_WRAM_BANK0, GB_MMU_WRAM_BANK1,
      GB_MMU_WRAM_ECHO_BANK0, GB_MMU_WRAM_ECHO_BANK1, GB_MMU_SPRITE, GB_MMU_EMPTY,
      GB_MMU_IO, GB_MMU_ZRAM, GB_MMU_INT] at pi pj hil hih hjl hjh <;>
    omega

/-- Every address of the fixed windows resolves to a populated slot of
`mmu_entries` whose range holds it. -/
theorem get_mmu_entry_fixed (env : Env α) (e : gb_emu α) (a : Nat) (ha : a < 0x10000)
    (hw : (0x8000 ≤ a ∧ a ≤ 0x9FFF) ∨ 0xC000 ≤ a) :
    ∃ i, i < mmu_entries_len ∧ get_mmu_entry e a = some (.table i) ∧
      populated (mmu_entries env i) ∧
      (mmu_entries env i).low ≤ a ∧ a ≤ (mmu_entries env i).high := by
  have hcases : (0x8000 ≤ a ∧ a ≤ 0x9FFF) ∨ (0xC000 ≤ a ∧ a ≤ 0xCFFF) ∨
      (0xD000 ≤ a ∧ a ≤ 0xDFFF) ∨ (0xE000 ≤ a ∧ a ≤ 0xEFFF) ∨
      (0xF000 ≤ a ∧ a ≤ 0xFDFF) ∨ (0xFE00 ≤ a ∧ a ≤ 0xFE9F) ∨
      (0xFEA0 ≤ a ∧ a ≤ 0xFEFF) ∨ (0xFF00 ≤ a ∧ a ≤ 0xFF7F) ∨
      (0xFF80 ≤ a ∧ a ≤ 0xFFFE) ∨ a = 0xFFFF := by omega
  rcases hcases with h | h | h | h | h | h | h | h | h | h
  · refine ⟨GB_MMU_VRAM, by decide, get_mmu_entry_vram e a h.1 h.2, ?_⟩
    rw [mmu_entries_vram]; exact ⟨⟨rfl, rfl⟩, h.1, h.2⟩
  · refine ⟨GB_MMU_WRAM_BANK0, by decide, get_mmu_entry_wram0 e a h.1 h.2, ?_⟩
    rw [mmu_entries_wram0]; exact ⟨⟨rfl, rfl⟩, h.1, h.2⟩
  · refine ⟨GB_MMU_WRAM_BANK1, by decide, get_mmu_entry_wram1 e a h.1 h.2, ?_⟩
    rw [mmu_entries_wram1]; exact ⟨⟨rfl, rfl⟩, h.1, h.2⟩
  · refine ⟨GB_MMU_WRAM_ECHO_BANK0, by decide, get_mmu_entry_echo0 e a h.1 h.2, ?_⟩
    rw [mmu_entries_echo0]; exact ⟨⟨rfl, rfl⟩, h.1, h.2⟩
  · refine ⟨GB_MMU_WRAM_ECHO_BANK1, by decide, get_mmu_entry_echo1 e a h.1 h.2, ?_⟩
    rw [mmu_entries_echo1]; exact ⟨⟨rfl, rfl⟩, h.1, h.2⟩
  · refine ⟨GB_MMU_SPRITE, by decide, get_mmu_entry_sprite e a h.1 h.2, ?_⟩
    rw [mmu_entries_sprite]; exact ⟨⟨rfl, rfl⟩, h.1, h.2⟩
  · refine ⟨GB_MMU_EMPTY, by decide, get_mmu_entry_empty e a h.1 h.2, ?_⟩
    rw [mmu_entries_empty]; exact ⟨⟨rfl, rfl⟩, h.1, h.2⟩
  · refine ⟨ GB_MMU_IO, by decide, get_mmu_entry_io e a h.1 h.2, ?_⟩
    rw [mmu_entries_io]; exact ⟨⟨rfl, rfl⟩, h.1, h.2⟩
  · refine ⟨GB_MMU_ZRAM, by decide, get_mmu_entry_zram e a h.1 h.2, ?_⟩
    rw [mmu_entries_zram]; exact ⟨⟨rfl, rfl⟩, h.1, h.2⟩
  · subst h
    refine ⟨GB_MMU_INT, by decide, get_mmu_entry_int e, ?_⟩
    rw [mmu_entries_int]; exact ⟨⟨rfl, rfl⟩, le_refl _, le_refl _⟩

/-! ## Dispatch through a resolved entry -/

theorem gb_emu_read8_entry (env : Env α) {e : gb_emu α} {a : Nat} {p : EntryPtr}
    (h : get_mmu_entry e a = some p) :
    gb_emu_read8 env e a =
      call_read8 (deref env p) e (u16 ((a : Int) - (deref env p).low)) (deref env p).low := by
  simp only [gb_emu_read8, h]

theorem gb_emu_read8_null (env : Env α) {e : gb_emu α} {a : Nat}
    (h : get_mmu_entry e a = none) : gb_emu_read8 env e a = some 0 := by
  simp only [gb_emu_read8, h]

theorem gb_emu_write8_entry (env : Env α) {e : gb_emu α} {a : Nat} {p : EntryPtr} (v : Nat)
    (h : get_mmu_entry e a = some p) :
    gb_emu_write8 env e a v =
      call_write8 (deref env p) e (u16 ((a : Int) - (deref env p).low)) (deref env p).low
        (u8 v) := by
  simp only [gb_emu_write8, h]

theorem gb_emu_write8_null (env : Env α) {e : gb_emu α} {a : Nat} (v : Nat)
    (h : get_mmu_entry e a = none) : gb_emu_write8 env e a v = some e := by
  simp only [gb_emu_write8, h]

theorem gb_emu_read16_entry (env : Env α) {e : gb_emu α} {a : Nat} {p : EntryPtr}
    (h : get_mmu_entry e a = some p) :
    gb_emu_read16 env e a =
      (match call_read8 (deref env p) e (u16 ((a : Int) - (deref env p).low))
          (deref env p).low,
        call_read8 (deref env p) e (u16 ((a : Int) - (deref env p).low + 1))
          (deref env p).low with
      | some lo, some hi => some (lo ||| (hi <<< 8))
      | _, _ => none) := by
  simp only [gb_emu_read16, h]

theorem gb_emu_read16_null (env : Env α) {e : gb_emu α} {a : Nat}
    (h : get_mmu_entry e a = none) : gb_emu_read16 env e a = some 0 := by
  simp only [gb_emu_read16, h]

theorem gb_emu_write16_entry (env : Env α) {e : gb_emu α} {a : Nat} {p : EntryPtr} (w : Nat)
    (h : get_mmu_entry e a = some p) :
    gb_emu_write16 env e a w =
      (match call_write8 (deref env p) e (u16 ((a : Int) - (deref env p).low))
          (deref env p).low (u8 (w &&& 0xFF)) with
      | some e1 =>
        call_write8 (deref env p) e1 (u16 ((a : Int) - (deref env p).low + 1))
          (deref env p).low (u8 (w >>> 8))
      | none => none) := by
  simp only [gb_emu_write16, h]

theorem gb_emu_write16_null (env : Env α) {e : gb_emu α} {a : Nat} (w : Nat)
    (h : get_mmu_entry e a = none) : gb_emu_write16 env e a w = some e := by
  simp only [gb_emu_write16, h]

/-! ## Storage handlers: a store followed by a load -/

theorem wram_store_read (e : gb_emu α) (bank addr val b i : Nat) :
    (wram_store e bank addr val).mmu.wram b i =
      if b = bank ∧ i = addr then val else e.mmu.wram b i := rfl

theorem wram_store_bank_no (e : gb_emu α) (bank addr val : Nat) :
    (wram_store e bank addr val).mmu.cgb_wram_bank_no = e.mmu.cgb_wram_bank_no := rfl

/-- Bank chosen by the two bank-1 handlers in the state `e`. -/
theorem wram_bank1_read8_eq (env : Env α) (e : gb_emu α) (addr low : Nat) :
    wram_bank1_read8 env e addr low =
      e.mmu.wram (if (!env.gb_emu_is_cgb e || e.mmu.cgb_wram_bank_no == 0) = true then 1
        else e.mmu.cgb_wram_bank_no) addr := by
  unfold wram_bank1_read8
  split <;> rfl

theorem wram_bank1_write8_eq (env : Env α) (e : gb_emu α) (addr low val : Nat) :
    wram_bank1_write8 env e addr low val =
      wram_store e (if (!env.gb_emu_is_cgb e || e.mmu.cgb_wram_bank_no == 0) = true then 1
        else e.mmu.cgb_wram_bank_no) addr val := by
  unfold wram_bank1_write8
  split <;> rfl

/-- With the CGB mode fixed, a load through the bank-1 handler after a store
through it reads the stored byte at the stored offset and the old cell at any
other offset. -/
theorem wram_bank1_read_write (env : Env α) (hcgb : cgb_mode_fixed env) (e : gb_emu α)
    (addr low val addr2 low2 : Nat) :
    wram_bank1_read8 env (wram_bank1_write8 env e addr low val) addr2 low2 =
      if addr2 = addr then val else wram_bank1_read8 env e addr2 low2 := by
  rw [wram_bank1_write8_eq, wram_bank1_read8_eq, wram_bank1_read8_eq, hcgb e,
    wram_store_bank_no, wram_store_read]
  simp

theorem wram_bank0_read_write (e : gb_emu α) (addr low val addr2 low2 : Nat) :
    wram_bank0_read8 (wram_bank0_write8 e addr low val) addr2 low2 =
      if addr2 = addr then val else wram_bank0_read8 e addr2 low2 := by
  simp [wram_bank0_read8, wram_bank0_write8, wram_store]

theorem zram_read_write (e : gb_emu α) (addr low val addr2 low2 : Nat) :
    zram_read8 (zram_write8 e addr low val) addr2 low2 =
      if addr2 = addr then val else zram_read8 e addr2 low2 := by
  simp [zram_read8, zram_write8]

/-- The concrete environment keeps the CGB flag outside work RAM. -/
theorem demo_env_cgb_mode_fixed : cgb_mode_fixed demo_env :=
  fun _ _ _ _ => rfl

/-- A 16-bit store followed by a 16-bit load through one storage handler pair
that behaves like an array of bytes. -/
theorem entry_write16_read16 (entry : gb_mmu_entry α)
    (rd : gb_emu α → Nat → Nat → Nat) (wr : gb_emu α → Nat → Nat → Nat → gb_emu α)
    (hrd : entry.read8 = some rd) (hwr : entry.write8 = some wr)
    (hrw : ∀ e addr low val addr2 low2,
      rd (wr e addr low val) addr2 low2 = if addr2 = addr then val else rd e addr2 low2)
    (e : gb_emu α) (a w : Nat) (hw : w < 65536) (hlow : entry.low ≤ a)
    (ha : a + 1 < 65536) :
    ∃ e2,
      (match call_write8 entry e (u16 ((a : Int) - entry.low)) entry.low (u8 (w &&& 0xFF)) with
        | some e1 =>
          call_write8 entry e1 (u16 ((a : Int) - entry.low + 1)) entry.low (u8 (w >>> 8))
        | none => none) = some e2 ∧
      (match call_read8 entry e2 (u16 ((a : Int) - entry.low)) entry.low,
          call_read8 entry e2 (u16 ((a : Int) - entry.low + 1)) entry.low with
        | some lo, some hi => some (lo ||| (hi <<< 8))
        | _, _ => none) = some w := by
  rw [u16_sub hlow (by omega), u16_sub_succ hlow ha]
  refine ⟨wr (wr e (a - entry.low) entry.low (u8 (w &&& 0xFF))) (a - entry.low + 1) entry.low
    (u8 (w >>> 8)), ?_, ?_⟩
  · simp only [call_write8, hwr]
  · have hne : a - entry.low ≠ a - entry.low + 1 := by omega
    simp only [call_read8, hrd, hrw, if_true, if_neg hne]
    exact congrArg some (word_of_bytes hw)

end decode

/-! ## The claims -/

section claims
variable {α : Type}

/-- C1: every 16-bit address resolves to exactly one region whose inclusive
range holds it.  In the fixed windows (0x8000-0x9FFF, 0xC000-0xFFFF)
`get_mmu_entry` yields a populated slot of `mmu_entries` with `low ≤ a ≤ high`,
and no other populated slot holds `a`; 0xFFFF is the interrupt-enable slot and
0xFF80-0xFFFE the zero-page slot.  In the cartridge windows (0x0000-0x7FFF,
0xA000-0xBFFF) it yields the installed controller pointer, whose range holds
`a` when the controller spans its window. -/
theorem C1_get_mmu_entry_one_region (env : Env α) (e : gb_emu α) (a : Nat)
    (ha : a < 0x10000) :
    (((0x8000 ≤ a ∧ a ≤ 0x9FFF) ∨ 0xC000 ≤ a) →
      ∃ i, i < mmu_entries_len ∧ get_mmu_entry e a = some (.table i) ∧
        populated (mmu_entries env i) ∧
        (mmu_entries env i).low ≤ a ∧ a ≤ (mmu_entries env i).high ∧
        ∀ j, j < mmu_entries_len → populated (mmu_entries env j) →
          (mmu_entries env j).low ≤ a → a ≤ (mmu_entries env j).high → j = i) ∧
    (a = 0xFFFF → get_mmu_entry e a = some (.table GB_MMU_INT)) ∧
    ((0xFF80 ≤ a ∧ a ≤ 0xFFFE) → get_mmu_entry e a = some (.table GB_MMU_ZRAM)) ∧
    (a < 0x8000 → ∀ p, e.mmu.mbc_controller = some p →
      get_mmu_entry e a = some (.ctrl p) ∧
      ((env.controller p).low = 0x0000 → (env.controller p).high = 0x7FFF →
        (deref env (.ctrl p)).low ≤ a ∧ a ≤ (deref env (.ctrl p)).high)) ∧
    ((0xA000 ≤ a ∧ a ≤ 0xBFFF) → ∀ p, e.mmu.eram_controller = some p →
      get_mmu_entry e a = some (.ctrl p) ∧
      ((env.controller p).low = 0xA000 → (env.controller p).high = 0xBFFF →
        (deref env (.ctrl p)).low ≤ a ∧ a ≤ (deref env (.ctrl p)).high)) := by
  refine ⟨?_, ?_, ?_, ?_, ?_⟩
  · intro hw
    obtain ⟨i, hi, hres, hpop, hlo, hhi⟩ := get_mmu_entry_fixed env e a ha hw
    exact ⟨i, hi, hres, hpop, hlo, hhi, fun j hj pj hjl hjh =>
      mmu_entries_disjoint env a i j hi hj hpop pj hlo hhi hjl hjh⟩
  · intro h
    subst h
    exact get_mmu_entry_int e
  · intro h
    exact get_mmu_entry_zram e a h.1 h.2
  · intro h p hp
    refine ⟨by rw [get_mmu_entry_rom e a h, hp]; rfl, fun hl hh => ?_⟩
    simp only [deref, hl, hh]
    omega
  · intro h p hp
    refine ⟨by rw [get_mmu_entry_eram e a h.1 h.2, hp]; rfl, fun hl hh => ?_⟩
    simp only [deref, hl, hh]
    omega

/-- C1 at the address 0xFFFE of the concrete instance: the zero-page slot, and
the only populated slot that holds the address. -/
theorem C1_get_mmu_entry_one_region_witness :
    (0xFFFE : Nat) < 0x10000 ∧
    get_mmu_entry demo_emu 0xFFFE = some (.table GB_MMU_ZRAM) ∧
    ∃ i, i < mmu_entries_len ∧ get_mmu_entry demo_emu 0xFFFE = some (.table i) ∧
      populated (mmu_entries demo_env i) ∧
      (mmu_entries demo_env i).low ≤ 0xFFFE ∧ 0xFFFE ≤ (mmu_entries demo_env i).high ∧
      ∀ j, j < mmu_entries_len → populated (mmu_entries demo_env j) →
        (mmu_entries demo_env j).low ≤ 0xFFFE → 0xFFFE ≤ (mmu_entries demo_env j).high →
        j = i :=
  ⟨by decide,
   (C1_get_mmu_entry_one_region demo_env demo_emu 0xFFFE (by decide)).2.2.1
     ⟨by decide, by decide⟩,
   (C1_get_mmu_entry_one_region demo_env demo_emu 0xFFFE (by decide)).1
     (Or.inr (by decide))⟩

/-- C2: an access in 0x0000-0x7FFF is forwarded to the installed ROM controller
and one in 0xA000-0xBFFF to the installed external-RAM controller: the read
returns what the controller's `read8` returns for the offset `a - low`, the
write calls the controller's `write8` with that offset and the byte unchanged,
and no address of the two windows resolves to a slot of `mmu_entries`. -/
theorem C2_cartridge_windows_forwarded (env : Env α) (e : gb_emu α) (a v : Nat)
    (hv : v < 256) (hwin : a < 0x8000 ∨ (0xA000 ≤ a ∧ a ≤ 0xBFFF)) :
    (∀ i, get_mmu_entry e a ≠ some (.table i)) ∧
    get_mmu_entry e a =
      (if a < 0x8000 then e.mmu.mbc_controller else e.mmu.eram_controller).map
        EntryPtr.ctrl ∧
    ∀ p, (if a < 0x8000 then e.mmu.mbc_controller else e.mmu.eram_controller) = some p →
      (env.controller p).low ≤ a →
      gb_emu_read8 env e a =
        call_read8 (env.controller p) e (a - (env.controller p).low)
          (env.controller p).low ∧
      (∀ f, (env.controller p).read8 = some f →
        gb_emu_read8 env e a =
          some (u8 (f e (a - (env.controller p).low) (env.controller p).low))) ∧
      gb_emu_write8 env e a v =
        call_write8 (env.controller p) e (a - (env.controller p).low)
          (env.controller p).low v ∧
      (∀ g, (env.controller p).write8 = some g →
        gb_emu_write8 env e a v =
          some (g e (a - (env.controller p).low) (env.controller p).low v)) := by
  have ha : a < 65536 := by omega
  have hres : get_mmu_entry e a =
      (if a < 0x8000 then e.mmu.mbc_controller else e.mmu.eram_controller).map
        EntryPtr.ctrl := by
    rcases hwin with h | ⟨h1, h2⟩
    · rw [get_mmu_entry_rom e a h, if_pos h]
    · rw [get_mmu_entry_eram e a h1 h2, if_neg (by omega)]
  refine ⟨?_, hres, ?_⟩
  · intro i hi
    rw [hres] at hi
    cases hc : (if a < 0x8000 then e.mmu.mbc_controller else e.mmu.eram_controller) with
    | none => rw [hc] at hi; cases hi
    | some p => rw [hc] at hi; cases hi
  · intro p hp hlow
    have hresp : get_mmu_entry e a = some (.ctrl p) := by rw [hres, hp]; rfl
    have hr : gb_emu_read8 env e a =
        call_read8 (env.controller p) e (a - (env.controller p).low)
          (env.controller p).low := by
      simp only [gb_emu_read8, hresp, deref, u16_sub hlow ha]
    have hw : gb_emu_write8 env e a v =
        call_write8 (env.controller p) e (a - (env.controller p).low)
          (env.controller p).low v := by
      simp only [gb_emu_write8, hresp, deref, u16_sub hlow ha, u8_of_lt hv]
    refine ⟨hr, ?_, hw, ?_⟩
    · intro f hf
      rw [hr, call_read8, hf]
    · intro g hg
      rw [hw, call_write8, hg]

/-- C2 at the address 0x0150 of the concrete instance: the address resolves to
no table slot and the read returns the byte 0x00 of the ROM controller stub. -/
theorem C2_cartridge_windows_forwarded_witness :
    (0x42 : Nat) < 256 ∧ (0x0150 : Nat) < 0x8000 ∧
    (∀ i, get_mmu_entry demo_emu 0x0150 ≠ some (.table i)) ∧
    gb_emu_read8 demo_env demo_emu 0x0150 = some 0x00 :=
  ⟨by decide, by decide,
   (C2_cartridge_windows_forwarded demo_env demo_emu 0x0150 0x42 (by decide)
      (Or.inl (by decide))).1,
   ((C2_cartridge_windows_forwarded demo_env demo_emu 0x0150 0x42 (by decide)
      (Or.inl (by decide))).2.2 0 rfl (by decide)).2.1 (fun _ _ _ => 0x00) rfl⟩

/-- C3, as stated, fails at 0xFF7F: `gb_emu_read16` resolves the I/O entry once
and reads both bytes through the I/O handler (offsets 0x7F and 0x80, both
unmapped, so 0), while the byte at 0xFF80 read on its own comes from zero-page
RAM (1 in the concrete instance). -/
theorem C3_read16_counterexample :
    gb_emu_read16 demo_env demo_emu 0xFF7F = some 0 ∧
    gb_emu_read16_spec demo_env demo_emu 0xFF7F = some 0x0100 ∧
    gb_emu_read16 demo_env demo_emu 0xFF7F ≠ gb_emu_read16_spec demo_env demo_emu 0xFF7F := by
  decide

/-- C3, amended: when `a + 1` is a 16-bit address that resolves to the same
entry as `a`, `gb_emu_read16 a` is `gb_emu_read8 a | (gb_emu_read8 (a + 1) << 8)`:
the entry is resolved once, for `a`, and both bytes are read through its
handler at the offsets `a - low` and `a - low + 1`. -/
theorem C3_read16_same_region (env : Env α) (e : gb_emu α) (a : Nat)
    (ha : a + 1 < 0x10000) (hsame : get_mmu_entry e (a + 1) = get_mmu_entry e a) :
    gb_emu_read16 env e a = gb_emu_read16_spec env e a := by
  have hmod : (a + 1) % 65536 = a + 1 := Nat.mod_eq_of_lt ha
  unfold gb_emu_read16 gb_emu_read16_spec gb_emu_read8
  rw [hmod, hsame]
  cases h : get_mmu_entry e a with
  | none => rfl
  | some p => simp only [u16_succ_sub]

/-- C3 amended, at 0xC000 of the concrete instance (both bytes in work-RAM
bank 0). -/
theorem C3_read16_same_region_witness :
    (0xC000 + 1 : Nat) < 0x10000 ∧
    get_mmu_entry demo_emu (0xC000 + 1) = get_mmu_entry demo_emu 0xC000 ∧
    gb_emu_read16 demo_env demo_emu 0xC000 = gb_emu_read16_spec demo_env demo_emu 0xC000 :=
  ⟨by decide, by decide, C3_read16_same_region demo_env demo_emu 0xC000 (by decide) (by decide)⟩

/-- C4, as stated, fails at 0xFF7F: `gb_emu_write16` sends both bytes to the I/O
handler, so the high byte 0x42 never reaches zero-page RAM; two 8-bit writes
store it at 0xFF80. -/
theorem C4_write16_counterexample :
    (gb_emu_write16 demo_env demo_emu 0xFF7F 0x4200).map (fun e => e.mmu.zram 0) = some 1 ∧
    (gb_emu_write16_spec demo_env demo_emu 0xFF7F 0x4200).map (fun e => e.mmu.zram 0)
      = some 0x42 ∧
    gb_emu_write16 demo_env demo_emu 0xFF7F 0x4200 ≠
      gb_emu_write16_spec demo_env demo_emu 0xFF7F 0x4200 := by
  refine ⟨by decide, by decide, fun h => ?_⟩
  have h2 := congrArg (fun o => o.map (fun e : gb_emu Bool => e.mmu.zram 0)) h
  revert h2
  decide

/-- C4, amended: when `a + 1` is a 16-bit address that, after the low byte is
written, resolves to the same entry as `a`, `gb_emu_write16 a w` leaves the
state of `gb_emu_write8 a (w & 0xFF)` followed by `gb_emu_write8 (a + 1) (w >> 8)`:
the entry is resolved once, for `a`, and both bytes are written through its
handler, low byte first, at the offsets `a - low` and `a - low + 1`. -/
theorem C4_write16_same_region (env : Env α) (e : gb_emu α) (a w : Nat)
    (ha : a + 1 < 0x10000)
    (hsame : ∀ e1, gb_emu_write8 env e a (w &&& 0xFF) = some e1 →
      get_mmu_entry e1 (a + 1) = get_mmu_entry e a) :
    gb_emu_write16 env e a w = gb_emu_write16_spec env e a w := by
  have hmod : (a + 1) % 65536 = a + 1 := Nat.mod_eq_of_lt ha
  unfold gb_emu_write16_spec
  rw [hmod]
  cases h : get_mmu_entry e a with
  | none =>
    have h1 := gb_emu_write8_null env (w &&& 0xFF) h
    have h2 := hsame e h1
    rw [h] at h2
    rw [gb_emu_write16_null env w h, h1]
    exact (gb_emu_write8_null env (w >>> 8) h2).symm
  | some p =>
    have h1 := gb_emu_write8_entry env (w &&& 0xFF) h
    rw [gb_emu_write16_entry env w h, h1]
    rw [h1] at hsame
    cases hc : call_write8 (deref env p) e (u16 ((a : Int) - (deref env p).low))
        (deref env p).low (u8 (w &&& 0xFF)) with
    | none => rfl
    | some e1 =>
      have h2 := hsame e1 hc
      rw [h] at h2
      simp only [gb_emu_write8_entry env (w >>> 8) h2, u16_succ_sub]

/-- C4 amended, at 0xC000 of the concrete instance (both bytes in work-RAM
bank 0). -/
theorem C4_write16_same_region_witness :
    (0xC000 + 1 : Nat) < 0x10000 ∧
    gb_emu_write16 demo_env demo_emu 0xC000 0x1234 =
      gb_emu_write16_spec demo_env demo_emu 0xC000 0x1234 :=
  ⟨by decide, C4_write16_same_region demo_env demo_emu 0xC000 0x1234 (by decide)
    (fun e1 _ => (get_mmu_entry_wram0 e1 (0xC000 + 1) (by decide) (by decide)).trans
      (get_mmu_entry_wram0 demo_emu 0xC000 (by decide) (by decide)).symm)⟩

/-- C5: in work RAM (0xC000-0xDFFF) and zero-page RAM (0xFF80-0xFFFE) a byte
written with `gb_emu_write8` is the byte `gb_emu_read8` returns at the same
address afterwards, for every byte 0..255, under any fixed CGB mode and any
work-RAM bank selection. -/
theorem C5_ram_write_then_read (env : Env α) (e : gb_emu α) (a v : Nat)
    (hv : v < 256) (hcgb : cgb_mode_fixed env)
    (hwin : (0xC000 ≤ a ∧ a ≤ 0xDFFF) ∨ (0xFF80 ≤ a ∧ a ≤ 0xFFFE)) :
    ∃ e1, gb_emu_write8 env e a v = some e1 ∧ gb_emu_read8 env e1 a = some v := by
  have hcases : (0xC000 ≤ a ∧ a ≤ 0xCFFF) ∨ (0xD000 ≤ a ∧ a ≤ 0xDFFF) ∨
      (0xFF80 ≤ a ∧ a ≤ 0xFFFE) := by omega
  rcases hcases with h | h | h
  · refine ⟨wram_bank0_write8 e (u16 ((a : Int) - 0xC000)) 0xC000 (u8 v), ?_, ?_⟩
    · rw [gb_emu_write8_entry env v (get_mmu_entry_wram0 e a h.1 h.2)]
      simp [deref, mmu_entries_wram0, call_write8]
    · rw [gb_emu_read8_entry env (get_mmu_entry_wram0 _ a h.1 h.2)]
      simp [deref, mmu_entries_wram0, call_read8, wram_bank0_read8, wram_bank0_write8,
        wram_store, u8_of_lt hv]
  · refine ⟨wram_bank1_write8 env e (u16 ((a : Int) - 0xD000)) 0xD000 (u8 v), ?_, ?_⟩
    · rw [gb_emu_write8_entry env v (get_mmu_entry_wram1 e a h.1 h.2)]
      simp [deref, mmu_entries_wram1, call_write8]
    · rw [gb_emu_read8_entry env (get_mmu_entry_wram1 _ a h.1 h.2)]
      simp only [deref, mmu_entries_wram1, call_read8, wram_bank1_read_write env hcgb,
        Nat.cast_ofNat, if_true, u8_of_lt hv]
  · refine ⟨zram_write8 e (u16 ((a : Int) - 0xFF80)) 0xFF80 (u8 v), ?_, ?_⟩
    · rw [gb_emu_write8_entry env v (get_mmu_entry_zram e a h.1 h.2)]
      simp [deref, mmu_entries_zram, call_write8]
    · rw [gb_emu_read8_entry env (get_mmu_entry_zram _ a h.1 h.2)]
      simp [deref, mmu_entries_zram, call_read8, zram_read8, zram_write8, u8_of_lt hv]

/-- C5 at 0xD123 of the concrete instance (work-RAM bank 1), byte 0xAB. -/
theorem C5_ram_write_then_read_witness :
    (0xAB : Nat) < 256 ∧ cgb_mode_fixed demo_env ∧ (0xC000 ≤ 0xD123 ∧ 0xD123 ≤ 0xDFFF) ∧
    ∃ e1, gb_emu_write8 demo_env demo_emu 0xD123 0xAB = some e1 ∧
      gb_emu_read8 demo_env e1 0xD123 = some 0xAB :=
  ⟨by decide, demo_env_cgb_mode_fixed, ⟨by decide, by decide⟩,
   C5_ram_write_then_read demo_env demo_emu 0xD123 0xAB (by decide) demo_env_cgb_mode_fixed
     (Or.inl ⟨by decide, by decide⟩)⟩

/-- C6: when `a` and `a + 1` lie in the same region of work RAM (bank 0
0xC000-0xCFFF, bank 1 0xD000-0xDFFF) or in zero-page RAM (0xFF80-0xFFFE), a
16-bit word written with `gb_emu_write16` is the word `gb_emu_read16` returns at
the same address afterwards. -/
theorem C6_ram_write16_then_read16 (env : Env α) (e : gb_emu α) (a w : Nat)
    (hw : w < 65536) (hcgb : cgb_mode_fixed env)
    (hwin : (0xC000 ≤ a ∧ a + 1 ≤ 0xCFFF) ∨ (0xD000 ≤ a ∧ a + 1 ≤ 0xDFFF) ∨
      (0xFF80 ≤ a ∧ a + 1 ≤ 0xFFFE)) :
    ∃ e2, gb_emu_write16 env e a w = some e2 ∧ gb_emu_read16 env e2 a = some w := by
  rcases hwin with h | h | h
  · obtain ⟨e2, h1, h2⟩ := entry_write16_read16 (mmu_entries env GB_MMU_WRAM_BANK0)
      wram_bank0_read8 wram_bank0_write8 rfl rfl wram_bank0_read_write e a w hw
      (by rw [mmu_entries_wram0]; exact h.1) (by omega)
    refine ⟨e2, ?_, ?_⟩
    · rw [gb_emu_write16_entry env w (get_mmu_entry_wram0 e a h.1 (by omega))]
      exact h1
    · rw [gb_emu_read16_entry env (get_mmu_entry_wram0 e2 a h.1 (by omega))]
      exact h2
  · obtain ⟨e2, h1, h2⟩ := entry_write16_read16 (mmu_entries env GB_MMU_WRAM_BANK1)
      (wram_bank1_read8 env) (wram_bank1_write8 env) rfl rfl
      (wram_bank1_read_write env hcgb) e a w hw
      (by rw [mmu_entries_wram1]; exact h.1) (by omega)
    refine ⟨e2, ?_, ?_⟩
    · rw [gb_emu_write16_entry env w (get_mmu_entry_wram1 e a h.1 (by omega))]
      exact h1
    · rw [gb_emu_read16_entry env (get_mmu_entry_wram1 e2 a h.1 (by omega))]
      exact h2
  · obtain ⟨e2, h1, h2⟩ := entry_write16_read16 (mmu_entries env GB_MMU_ZRAM)
      zram_read8 zram_write8 rfl rfl zram_read_write e a w hw
      (by rw [mmu_entries_zram]; exact h.1) (by omega)
    refine ⟨e2, ?_, ?_⟩
    · rw [gb_emu_write16_entry env w (get_mmu_entry_zram e a h.1 (by omega))]
      exact h1
    · rw [gb_emu_read16_entry env (get_mmu_entry_zram e2 a h.1 (by omega))]
      exact h2

/-- C6 at 0xFF90 of the concrete instance (zero-page RAM), word 0xBEEF. -/
theorem C6_ram_write16_then_read16_witness :
    (0xBEEF : Nat) < 65536 ∧ cgb_mode_fixed demo_env ∧ (0xFF80 ≤ 0xFF90 ∧ 0xFF90 + 1 ≤ 0xFFFE) ∧
    ∃ e2, gb_emu_write16 demo_env demo_emu 0xFF90 0xBEEF = some e2 ∧
      gb_emu_read16 demo_env e2 0xFF90 = some 0xBEEF :=
  ⟨by decide, demo_env_cgb_mode_fixed, ⟨by decide, by decide⟩,
   C6_ram_write16_then_read16 demo_env demo_emu 0xFF90 0xBEEF (by decide)
     demo_env_cgb_mode_fixed (Or.inr (Or.inr ⟨by decide, by decide⟩))⟩

/-- C7: echo RAM has no store of its own.  For every address `a` in
0xE000-0xFDFF a read at `a` is the read at `a - 0x2000` and a write at `a`
leaves the state of the write at `a - 0x2000`; so for `k` in [0, 0xFFF] a write
at `0xE000 + k` is read back at `0xC000 + k`, and a write at `0xC000 + k` is read
back at `0xE000 + k`. -/
theorem C7_echo_ram_aliases_work_ram (env : Env α) (e : gb_emu α) (a v k : Nat)
    (hv : v < 256) (hwin : 0xE000 ≤ a ∧ a ≤ 0xFDFF) (hk : k ≤ 0xFFF) :
    gb_emu_read8 env e a = gb_emu_read8 env e (a - 0x2000) ∧
    gb_emu_write8 env e a v = gb_emu_write8 env e (a - 0x2000) v ∧
    (∃ e1, gb_emu_write8 env e (0xE000 + k) v = some e1 ∧
      gb_emu_read8 env e1 (0xC000 + k) = some v) ∧
    (∃ e1, gb_emu_write8 env e (0xC000 + k) v = some e1 ∧
      gb_emu_read8 env e1 (0xE000 + k) = some v) := by
  have halias : ∀ (e : gb_emu α) (a : Nat), 0xE000 ≤ a → a ≤ 0xFDFF →
      gb_emu_read8 env e a = gb_emu_read8 env e (a - 0x2000) ∧
      gb_emu_write8 env e a v = gb_emu_write8 env e (a - 0x2000) v := by
    intro e a h1 h2
    by_cases hb : a ≤ 0xEFFF
    · have hoff : u16 ((a : Int) - (0xE000 : Nat)) = u16 (((a - 0x2000 : Nat) : Int) - (0xC000 : Nat)) := by
        rw [u16_sub h1 (by omega), u16_sub (by omega) (by omega)]; omega
      rw [gb_emu_read8_entry env (get_mmu_entry_echo0 e a h1 hb),
        gb_emu_read8_entry env (get_mmu_entry_wram0 e (a - 0x2000) (by omega) (by omega)),
        gb_emu_write8_entry env v (get_mmu_entry_echo0 e a h1 hb),
        gb_emu_write8_entry env v (get_mmu_entry_wram0 e (a - 0x2000) (by omega) (by omega))]
      simp only [deref, mmu_entries_echo0, mmu_entries_wram0, call_read8, call_write8, hoff,
        wram_bank0_read8, wram_bank0_write8, and_self]
    · have hoff : u16 ((a : Int) - (0xF000 : Nat)) = u16 (((a - 0x2000 : Nat) : Int) - (0xD000 : Nat)) := by
        rw [u16_sub (by omega) (by omega), u16_sub (by omega) (by omega)]; omega
      rw [gb_emu_read8_entry env (get_mmu_entry_echo1 e a (by omega) h2),
        gb_emu_read8_entry env (get_mmu_entry_wram1 e (a - 0x2000) (by omega) (by omega)),
        gb_emu_write8_entry env v (get_mmu_entry_echo1 e a (by omega) h2),
        gb_emu_write8_entry env v (get_mmu_entry_wram1 e (a - 0x2000) (by omega) (by omega))]
      simp only [deref, mmu_entries_echo1, mmu_entries_wram1, call_read8, call_write8, hoff,
        wram_bank1_read8_eq, wram_bank1_write8_eq, and_self]
  have hback : ∀ (e : gb_emu α), ∃ e1, gb_emu_write8 env e (0xC000 + k) v = some e1 ∧
      gb_emu_read8 env e1 (0xC000 + k) = some v := by
    intro e
    refine ⟨wram_bank0_write8 e (u16 (((0xC000 + k : Nat) : Int) - (0xC000 : Nat))) 0xC000 (u8 v),
      ?_, ?_⟩
    · rw [gb_emu_write8_entry env v (get_mmu_entry_wram0 e (0xC000 + k) (by omega) (by omega))]
      simp only [deref, mmu_entries_wram0, call_write8]
    · rw [gb_emu_read8_entry env (get_mmu_entry_wram0 _ (0xC000 + k) (by omega) (by omega))]
      simp only [deref, mmu_entries_wram0, call_read8, wram_bank0_read_write, if_true,
        u8_of_lt hv]
  have hk2 : 0xE000 + k - 0x2000 = 0xC000 + k := by omega
  refine ⟨(halias e a hwin.1 hwin.2).1, (halias e a hwin.1 hwin.2).2, ?_, ?_⟩
  · obtain ⟨e1, h1, h2⟩ := hback e
    refine ⟨e1, ?_, h2⟩
    rw [(halias e (0xE000 + k) (by omega) (by omega)).2, hk2]
    exact h1
  · obtain ⟨e1, h1, h2⟩ := hback e
    refine ⟨e1, h1, ?_⟩
    rw [(halias e1 (0xE000 + k) (by omega) (by omega)).1, hk2]
    exact h2

/-- C7 at 0xE010 of the concrete instance, byte 0x5A, `k = 0x10`. -/
theorem C7_echo_ram_aliases_work_ram_witness :
    (0x5A : Nat) < 256 ∧ (0xE000 ≤ 0xE010 ∧ 0xE010 ≤ 0xFDFF) ∧ (0x10 : Nat) ≤ 0xFFF ∧
    gb_emu_read8 demo_env demo_emu 0xE010 = gb_emu_read8 demo_env demo_emu (0xE010 - 0x2000) ∧
    ∃ e1, gb_emu_write8 demo_env demo_emu (0xE000 + 0x10) 0x5A = some e1 ∧
      gb_emu_read8 demo_env e1 (0xC000 + 0x10) = some 0x5A :=
  ⟨by decide, ⟨by decide, by decide⟩, by decide,
   (C7_echo_ram_aliases_work_ram demo_env demo_emu 0xE010 0x5A 0x10 (by decide)
      ⟨by decide, by decide⟩ (by decide)).1,
   (C7_echo_ram_aliases_work_ram demo_env demo_emu 0xE010 0x5A 0x10 (by decide)
      ⟨by decide, by decide⟩ (by decide)).2.2.1⟩

/-- C8: in the unusable region 0xFEA0-0xFEFF a read returns 0 and a write of any
byte leaves the whole emulator state as it was; so after any sequence of writes
into the region the state is the initial one and a read is still 0. -/
theorem C8_unusable_region (env : Env α) (e : gb_emu α) (a v : Nat) (ws : List (Nat × Nat))
    (hwin : 0xFEA0 ≤ a ∧ a ≤ 0xFEFF)
    (hws : ∀ x ∈ ws, 0xFEA0 ≤ x.1 ∧ x.1 ≤ 0xFEFF) :
    gb_emu_read8 env e a = some 0 ∧
    gb_emu_write8 env e a v = some e ∧
    write8_seq env e ws = some e ∧
    ∀ e1, write8_seq env e ws = some e1 → gb_emu_read8 env e1 a = some 0 := by
  have hread : ∀ (e : gb_emu α), gb_emu_read8 env e a = some 0 := by
    intro e
    rw [gb_emu_read8_entry env (get_mmu_entry_empty e a hwin.1 hwin.2)]
    rfl
  have hwrite : ∀ (a v : Nat), 0xFEA0 ≤ a ∧ a ≤ 0xFEFF → gb_emu_write8 env e a v = some e := by
    intro a v h
    rw [gb_emu_write8_entry env v (get_mmu_entry_empty e a h.1 h.2)]
    rfl
  have hseq : write8_seq env e ws = some e := by
    induction ws with
    | nil => rfl
    | cons x xs ih =>
      obtain ⟨xa, xv⟩ := x
      have hx := hws (xa, xv) (List.mem_cons_self _ _)
      simp only [write8_seq, hwrite xa xv hx]
      exact ih (fun y hy => hws y (List.mem_cons_of_mem _ hy))
  exact ⟨hread e, hwrite a v hwin, hseq, fun e1 _ => hread e1⟩

/-- C8 at 0xFEA0 of the concrete instance, after the writes of 0xFF at 0xFEFF
and of 0x01 at 0xFEA0. -/
theorem C8_unusable_region_witness :
    (0xFEA0 ≤ 0xFEA0 ∧ 0xFEA0 ≤ 0xFEFF) ∧
    gb_emu_read8 demo_env demo_emu 0xFEA0 = some 0 ∧
    write8_seq demo_env demo_emu [(0xFEFF, 0xFF), (0xFEA0, 0x01)] = some demo_emu :=
  ⟨⟨by decide, by decide⟩,
   (C8_unusable_region demo_env demo_emu 0xFEA0 0x7 [(0xFEFF, 0xFF), (0xFEA0, 0x01)]
      ⟨by decide, by decide⟩ (by decide)).1,
   (C8_unusable_region demo_env demo_emu 0xFEA0 0x7 [(0xFEFF, 0xFF), (0xFEA0, 0x01)]
      ⟨by decide, by decide⟩ (by decide)).2.2.1⟩

/-- C9: when `get_mmu_entry` resolves no entry, `gb_emu_read8` and
`gb_emu_read16` return 0 and `gb_emu_write8` and `gb_emu_write16` leave the state
unchanged, none of them failing; and for a 16-bit address that happens only in
0x0000-0x7FFF with no ROM controller installed or in 0xA000-0xBFFF with no
external-RAM controller installed: in 0x8000-0x9FFF and 0xC000-0xFFFF an entry
is always resolved. -/
theorem C9_unresolved_address (env : Env α) (e : gb_emu α) (a v w : Nat) (ha : a < 0x10000) :
    (get_mmu_entry e a = none →
      gb_emu_read8 env e a = some 0 ∧ gb_emu_read16 env e a = some 0 ∧
      gb_emu_write8 env e a v = some e ∧ gb_emu_write16 env e a w = some e) ∧
    (get_mmu_entry e a = none →
      (a ≤ 0x7FFF ∧ e.mmu.mbc_controller = none) ∨
      (0xA000 ≤ a ∧ a ≤ 0xBFFF ∧ e.mmu.eram_controller = none)) ∧
    (((0x8000 ≤ a ∧ a ≤ 0x9FFF) ∨ 0xC000 ≤ a) → get_mmu_entry e a ≠ none) := by
  have hfixed : ((0x8000 ≤ a ∧ a ≤ 0x9FFF) ∨ 0xC000 ≤ a) → get_mmu_entry e a ≠ none := by
    intro hw hnone
    obtain ⟨i, _, hres, _⟩ := get_mmu_entry_fixed env e a ha hw
    rw [hres] at hnone
    cases hnone
  refine ⟨fun h => ⟨gb_emu_read8_null env h, gb_emu_read16_null env h,
    gb_emu_write8_null env v h, gb_emu_write16_null env w h⟩, ?_, hfixed⟩
  intro hnone
  by_cases h1 : a < 0x8000
  · left
    rw [get_mmu_entry_rom e a h1] at hnone
    refine ⟨by omega, ?_⟩
    cases hc : e.mmu.mbc_controller with
    | none => rfl
    | some p => rw [hc] at hnone; cases hnone
  · by_cases h2 : 0xA000 ≤ a ∧ a ≤ 0xBFFF
    · right
      rw [get_mmu_entry_eram e a h2.1 h2.2] at hnone
      refine ⟨h2.1, h2.2, ?_⟩
      cases hc : e.mmu.eram_controller with
      | none => rfl
      | some p => rw [hc] at hnone; cases hnone
    · exact absurd hnone (hfixed (by omega))

/-- C9 at 0x0100 of the concrete instance without a cartridge: nothing is
resolved, the reads give 0. -/
theorem C9_unresolved_address_witness :
    (0x0100 : Nat) < 0x10000 ∧ get_mmu_entry bare_emu 0x0100 = none ∧
    gb_emu_read8 demo_env bare_emu 0x0100 = some 0 ∧
    gb_emu_read16 demo_env bare_emu 0x0100 = some 0 ∧
    gb_emu_write8 demo_env bare_emu 0x0100 0x12 = some bare_emu ∧
    gb_emu_write16 demo_env bare_emu 0x0100 0x1234 = some bare_emu :=
  ⟨by decide, rfl,
   (C9_unresolved_address demo_env bare_emu 0x0100 0x12 0x1234 (by decide)).1 rfl⟩

/-- C10 fails on the code: the status case of `gb_emu_io_write8` masks and sets
`gpu.ctl`, so a write to 0xFF41 leaves `gpu.status` as it was, whatever the
byte.  In the concrete instance (status 0, mode 0) the byte 0xF8 written to
0xFF41 ends in `gpu.ctl`, and the status register still reads 0. -/
theorem C10_status_write_misses_status (env : Env α) (e : gb_emu α) (b : Nat) :
    (gb_emu_io_write8 env e 0x41 0xFF00 b).gpu.status = e.gpu.status ∧
    (gb_emu_io_write8 demo_env demo_emu 0x41 0xFF00 0xF8).gpu.status = 0 ∧
    (gb_emu_io_write8 demo_env demo_emu 0x41 0xFF00 0xF8).gpu.ctl = 0xF8 ∧
    gb_emu_io_read8 (gb_emu_io_write8 demo_env demo_emu 0x41 0xFF00 0xF8) 0x41 0xFF00 = 0 ∧
    (gb_emu_write8 demo_env demo_emu 0xFF41 0xF8).bind
      (fun e1 => gb_emu_read8 demo_env e1 0xFF41) = some 0 := by
  refine ⟨?_, by decide, by decide, by decide, by decide⟩
  unfold gb_emu_io_write8
  simp only [GB_IO_GPU_CTL, GB_IO_GPU_STATUS]
  split
  · split <;> rfl
  · norm_num

/-! ## The status register in the I/O block -/

theorem testBit_u8 (x i : Nat) : (u8 x).testBit i = (decide (i < 8) && x.testBit i) :=
  Nat.testBit_mod_two_pow x 8 i

/-- What a write to 0xFF41 does: nothing to the GPU when the BIOS flag register
sits at that address, else it masks and sets `gpu.ctl`. -/
theorem io_write8_status_gpu (env : Env α) (e : gb_emu α) (b : Nat) :
    (gb_emu_io_write8 env e 0x41 0xFF00 b).gpu = e.gpu ∨
    (gb_emu_io_write8 env e 0x41 0xFF00 b).gpu =
      { e.gpu with ctl := u8 (u8 (e.gpu.ctl &&& 0x04) ||| b) } := by
  unfold gb_emu_io_write8
  simp only [GB_IO_GPU_CTL, GB_IO_GPU_STATUS]
  split
  · left
    split <;> rfl
  · right
    norm_num

theorem io_write8_status_status (env : Env α) (e : gb_emu α) (b : Nat) :
    (gb_emu_io_write8 env e 0x41 0xFF00 b).gpu.status = e.gpu.status := by
  rcases io_write8_status_gpu env e b with h | h <;> rw [h]

theorem io_write8_status_mode (env : Env α) (e : gb_emu α) (b : Nat) :
    (gb_emu_io_write8 env e 0x41 0xFF00 b).gpu.mode = e.gpu.mode := by
  rcases io_write8_status_gpu env e b with h | h <;> rw [h]

theorem io_read8_status (e : gb_emu α) :
    gb_emu_io_read8 e 0x41 0xFF00 = u8 (u8 (e.gpu.status &&& 0xF8) ||| e.gpu.mode) := by
  unfold gb_emu_io_read8
  simp only [GB_IO_GPU_CTL, GB_IO_GPU_STATUS]
  norm_num

/-- The low two bits of a status read are the mode, for a mode of the
enumeration. -/
theorem io_read8_status_low (e : gb_emu α) (hm : e.gpu.mode ≤ GB_GPU_MODE_VRAM) :
    gb_emu_io_read8 e 0x41 0xFF00 % 4 = e.gpu.mode := by
  have hm4 : e.gpu.mode < 2 ^ 2 := by unfold GB_GPU_MODE_VRAM at hm; omega
  rw [io_read8_status]
  apply Nat.eq_of_testBit_eq
  intro i
  have h4 : (4 : Nat) = 2 ^ 2 := rfl
  rw [h4, Nat.testBit_mod_two_pow, testBit_u8, Nat.testBit_or, testBit_u8, Nat.testBit_and]
  by_cases hi : i < 2
  · have h248 : Nat.testBit 0xF8 i = false := by
      interval_cases i <;> decide
    have hi8 : i < 8 := by omega
    simp [hi, hi8, h248]
  · have hmi : e.gpu.mode.testBit i = false :=
      Nat.testBit_lt_two_pow (lt_of_lt_of_le hm4 (Nat.pow_le_pow_right (by decide) (by omega)))
    simp [hi, hmi]

/-- C11: a write of any byte to the status register 0xFF41 through
`gb_emu_io_write8` leaves bit 2 of `gpu.status` as it was; so after the writes of
0x00 and then 0xFF, bit 2 is still what it was (set stays set, clear stays
clear). -/
theorem C11_status_write_keeps_bit2 (env : Env α) (e : gb_emu α) (b : Nat) :
    (gb_emu_io_write8 env e 0x41 0xFF00 b).gpu.status.testBit 2 = e.gpu.status.testBit 2 ∧
    (gb_emu_io_write8 env (gb_emu_io_write8 env e 0x41 0xFF00 0x00) 0x41 0xFF00
      0xFF).gpu.status.testBit 2 = e.gpu.status.testBit 2 := by
  refine ⟨by rw [io_write8_status_status], ?_⟩
  rw [io_write8_status_status, io_write8_status_status]

/-- C12: a read of the status register 0xFF41 through `gb_emu_io_read8` returns a
byte whose low two bits are the current `gpu.mode` (0..3), also right after any
byte was written to 0xFF41, and whose bits 3-7 are those of `gpu.status`. -/
theorem C12_status_read_mode_and_high_bits (env : Env α) (e : gb_emu α) (b : Nat)
    (hm : e.gpu.mode ≤ GB_GPU_MODE_VRAM) :
    gb_emu_io_read8 e 0x41 0xFF00 % 4 = e.gpu.mode ∧
    gb_emu_io_read8 (gb_emu_io_write8 env e 0x41 0xFF00 b) 0x41 0xFF00 % 4 = e.gpu.mode ∧
    ∀ i, 3 ≤ i → i ≤ 7 →
      (gb_emu_io_read8 e 0x41 0xFF00).testBit i = e.gpu.status.testBit i := by
  refine ⟨io_read8_status_low e hm, ?_, ?_⟩
  · have h := io_read8_status_low (gb_emu_io_write8 env e 0x41 0xFF00 b)
      (by rw [io_write8_status_mode]; exact hm)
    rw [io_write8_status_mode] at h
    exact h
  · intro i h3 h7
    have hm8 : e.gpu.mode < 2 ^ 3 := by unfold GB_GPU_MODE_VRAM at hm; omega
    have hmi : e.gpu.mode.testBit i = false :=
      Nat.testBit_lt_two_pow (lt_of_lt_of_le hm8 (Nat.pow_le_pow_right (by decide) h3))
    have h248 : Nat.testBit 0xF8 i = true := by
      interval_cases i <;> decide
    have hi8 : i < 8 := by omega
    rw [io_read8_status, testBit_u8, Nat.testBit_or, testBit_u8, Nat.testBit_and]
    simp [hi8, hmi, h248]

/-- C12 on the concrete instance in mode OAM with status 0xFF: the read is
0xFA. -/
theorem C12_status_read_mode_and_high_bits_witness :
    GB_GPU_MODE_OAM ≤ GB_GPU_MODE_VRAM ∧
    gb_emu_io_read8
      ({ demo_emu with gpu := { demo_gpu with mode := GB_GPU_MODE_OAM, status := 0xFF } })
      0x41 0xFF00 % 4 = GB_GPU_MODE_OAM :=
  ⟨by decide,
   (C12_status_read_mode_and_high_bits demo_env
      ({ demo_emu with gpu := { demo_gpu with mode := GB_GPU_MODE_OAM, status := 0xFF } })
      0x00 (by decide)).1⟩

/-- C13 fails on the code: the status read of `gb_emu_io_read8` masks bit 2 off
`gpu.status` and or-s in the mode only (the place is marked `FIXME: Insert LY ==
LYC check here`), so bit 2 of the byte read is bit 2 of the mode and never tells
whether `cur_line` equals `cur_line_cmp`.  In the concrete instance both are 0
and bit 2 of the read is clear. -/
theorem C13_status_read_lacks_coincidence (e : gb_emu α) :
    (gb_emu_io_read8 e 0x41 0xFF00).testBit 2 = e.gpu.mode.testBit 2 ∧
    demo_emu.gpu.cur_line = demo_emu.gpu.cur_line_cmp ∧
    (gb_emu_io_read8 demo_emu 0x41 0xFF00).testBit 2 = false ∧
    (gb_emu_io_read8 ({ demo_emu with gpu := { demo_gpu with status := 0x04 } })
      0x41 0xFF00).testBit 2 = false := by
  refine ⟨?_, rfl, by decide, by decide⟩
  have h248 : Nat.testBit 0xF8 2 = false := by decide
  rw [io_read8_status, testBit_u8, Nat.testBit_or, testBit_u8, Nat.testBit_and]
  simp [h248]

/-- C14 fails on the code: the status case of `gb_emu_io_write8` assigns to
`gpu.ctl`.  In the concrete instance the control register reads 0x00 before the
byte 0xF8 is written to 0xFF41 and 0xF8 after it. -/
theorem C14_status_write_changes_ctl :
    gb_emu_io_read8 demo_emu 0x40 0xFF00 = 0x00 ∧
    (gb_emu_io_write8 demo_env demo_emu 0x41 0xFF00 0xF8).gpu.ctl = 0xF8 ∧
    gb_emu_io_read8 (gb_emu_io_write8 demo_env demo_emu 0x41 0xFF00 0xF8) 0x40 0xFF00 = 0xF8 ∧
    (gb_emu_write8 demo_env demo_emu 0xFF41 0xF8).bind
      (fun e1 => gb_emu_read8 demo_env e1 0xFF40) = some 0xF8 := by
  decide

/-! ## Unmapped I/O addresses and the BIOS latch -/

/-- C15: at an address of the I/O window 0xFF00-0xFF7F that is none of the
registers 0xFF40-0xFF44, `gb_emu_io_read8` returns 0; when it is not the BIOS flag
register either, `gb_emu_io_write8` leaves the emulator state unchanged for every
byte.  The same holds for the access made through `gb_emu_read8` and
`gb_emu_write8`. -/
theorem C15_unmapped_io_address (env : Env α) (e : gb_emu α) (a b : Nat)
    (hwin : 0xFF00 ≤ a ∧ a ≤ 0xFF7F)
    (hreg : a ≠ GB_IO_GPU_CTL ∧ a ≠ GB_IO_GPU_STATUS ∧ a ≠ GB_IO_GPU_SCRY ∧
      a ≠ GB_IO_GPU_SCRX ∧ a ≠ GB_IO_GPU_LY) :
    gb_emu_io_read8 e (a - 0xFF00) 0xFF00 = 0 ∧
    gb_emu_read8 env e a = some 0 ∧
    (a ≠ env.GB_IO_BIOS_FLAG →
      gb_emu_io_write8 env e (a - 0xFF00) 0xFF00 b = e ∧
      gb_emu_write8 env e a b = some e) := by
  obtain ⟨h0, h1, h2, h3, h4⟩ := hreg
  have hsel : a - 0xFF00 + 0xFF00 = a := by omega
  have hoff : u16 ((a : Int) - (0xFF00 : Nat)) = a - 0xFF00 := u16_sub hwin.1 (by omega)
  have hr : gb_emu_io_read8 e (a - 0xFF00) 0xFF00 = 0 := by
    unfold gb_emu_io_read8
    simp only [hsel, if_neg h0, if_neg h1, if_neg h2, if_neg h3, if_neg h4]
  refine ⟨hr, ?_, ?_⟩
  · rw [gb_emu_read8_entry env (get_mmu_entry_io e a hwin.1 hwin.2)]
    simp only [deref, mmu_entries_io, call_read8, hoff, hr]
    rfl
  · intro hb
    have hw : ∀ v, gb_emu_io_write8 env e (a - 0xFF00) 0xFF00 v = e := by
      intro v
      unfold gb_emu_io_write8
      simp only [hsel, if_neg hb, if_neg h0, if_neg h1, if_neg h2, if_neg h3, if_neg h4]
    refine ⟨hw b, ?_⟩
    rw [gb_emu_write8_entry env b (get_mmu_entry_io e a hwin.1 hwin.2)]
    simp only [deref, mmu_entries_io, call_write8, hoff, hw]

/-- C15 at 0xFF10 of the concrete instance. -/
theorem C15_unmapped_io_address_witness :
    (0xFF00 ≤ 0xFF10 ∧ 0xFF10 ≤ 0xFF7F) ∧
    gb_emu_io_read8 demo_emu (0xFF10 - 0xFF00) 0xFF00 = 0 ∧
    gb_emu_read8 demo_env demo_emu 0xFF10 = some 0 ∧
    gb_emu_write8 demo_env demo_emu 0xFF10 0x77 = some demo_emu :=
  ⟨⟨by decide, by decide⟩,
   (C15_unmapped_io_address demo_env demo_emu 0xFF10 0x77 ⟨by decide, by decide⟩
      ⟨by decide, by decide, by decide, by decide, by decide⟩).1,
   (C15_unmapped_io_address demo_env demo_emu 0xFF10 0x77 ⟨by decide, by decide⟩
      ⟨by decide, by decide, by decide, by decide, by decide⟩).2.1,
   ((C15_unmapped_io_address demo_env demo_emu 0xFF10 0x77 ⟨by decide, by decide⟩
      ⟨by decide, by decide, by decide, by decide, by decide⟩).2.2 (by decide)).2⟩

/-- One I/O write leaves `mmu.bios_flag` as it was or sets it to 1, provided the
control-register change does not touch it. -/
theorem io_write8_bios_flag (env : Env α)
    (hctl : ∀ (e : gb_emu α) (b : Nat),
      (env.gb_gpu_ctl_change e b).mmu.bios_flag = e.mmu.bios_flag)
    (e : gb_emu α) (addr low b : Nat) :
    (gb_emu_io_write8 env e addr low b).mmu.bios_flag = e.mmu.bios_flag ∨
    (gb_emu_io_write8 env e addr low b).mmu.bios_flag = 1 := by
  unfold gb_emu_io_write8
  simp only
  split
  · split
    · right; rfl
    · left; rfl
  · split
    · left; exact hctl e b
    · left
      split
      · rfl
      · split
        · rfl
        · split
          · rfl
          · split <;> rfl

/-- C16: the BIOS-disable latch is one-way.  A write of 1 to the BIOS flag
register sets `mmu.bios_flag` to 1, a write of another value there leaves it as it
was, and once it is 1 it is 1 after any sequence of `gb_emu_io_write8` calls,
whatever the addresses and bytes (the control-register change of the GPU, which
is declared elsewhere, is taken not to touch `mmu.bios_flag`). -/
theorem C16_bios_latch_one_way (env : Env α)
    (hctl : ∀ (e : gb_emu α) (b : Nat),
      (env.gb_gpu_ctl_change e b).mmu.bios_flag = e.mmu.bios_flag)
    (e : gb_emu α) (addr low b : Nat) (ws : List (Nat × Nat × Nat)) :
    (addr + low = env.GB_IO_BIOS_FLAG →
      (gb_emu_io_write8 env e addr low 1).mmu.bios_flag = 1) ∧
    (addr + low = env.GB_IO_BIOS_FLAG → b ≠ 1 →
      (gb_emu_io_write8 env e addr low b).mmu.bios_flag = e.mmu.bios_flag) ∧
    (e.mmu.bios_flag = 1 → (io_write8_seq env e ws).mmu.bios_flag = 1) := by
  refine ⟨?_, ?_, ?_⟩
  · intro h
    unfold gb_emu_io_write8
    simp only [h, if_true]
  · intro h hb
    unfold gb_emu_io_write8
    simp only [h, if_true, if_neg hb]
  · intro h1
    induction ws generalizing e with
    | nil => exact h1
    | cons x xs ih =>
      obtain ⟨xa, xl, xb⟩ := x
      simp only [io_write8_seq]
      apply ih
      rcases io_write8_bios_flag env hctl e xa xl xb with h | h
      · rw [h, h1]
      · exact h

/-- C16 on the concrete instance: the latch set by a write of 1 at 0xFF50
survives writes of 0 to the BIOS flag register and of 0xFF to the control and
status registers. -/
theorem C16_bios_latch_one_way_witness :
    (gb_emu_io_write8 demo_env demo_emu 0x50 0xFF00 1).mmu.bios_flag = 1 ∧
    (io_write8_seq demo_env (gb_emu_io_write8 demo_env demo_emu 0x50 0xFF00 1)
      [(0x50, 0xFF00, 0), (0x40, 0xFF00, 0xFF), (0x41, 0xFF00, 0xFF)]).mmu.bios_flag = 1 :=
  ⟨(C16_bios_latch_one_way demo_env (fun _ _ => rfl) demo_emu 0x50 0xFF00 0
      []).1 rfl,
   (C16_bios_latch_one_way demo_env (fun _ _ => rfl)
      (gb_emu_io_write8 demo_env demo_emu 0x50 0xFF00 1) 0x50 0xFF00 0
      [(0x50, 0xFF00, 0), (0x40, 0xFF00, 0xFF), (0x41, 0xFF00, 0xFF)]).2.2 rfl⟩

/-! ## Opcode fetch -/

theorem u16_add (n k : Nat) : u16 ((n : Int) + k) = (n + k) % 65536 := by
  unfold u16; omega

/-- C17: `gb_emu_next_pc8` returns what `gb_emu_read8` gives at the old PC and
sets PC to (PC + 1) mod 2^16; `gb_emu_next_pc16` returns what `gb_emu_read16`
gives at the old PC and sets PC to (PC + 2) mod 2^16; no other register and
nothing else of the emulator changes.  The read is made after PC is advanced,
which is the read in the old state when the read handlers do not look at the
CPU registers.  With a ROM controller whose `read8` is constantly 0x00 and
PC = 0x0100, `gb_emu_next_pc8` returns 0x00 and leaves PC = 0x0101. -/
theorem C17_next_pc_fetch (env : Env α) (e : gb_emu α) :
    ((gb_emu_next_pc8 env e).1 =
        gb_emu_read8 env (gb_emu_next_pc8 env e).2 (e.cpu.w env.GB_REG_PC) ∧
      (reads_ignore_cpu env →
        (gb_emu_next_pc8 env e).1 = gb_emu_read8 env e (e.cpu.w env.GB_REG_PC)) ∧
      (gb_emu_next_pc8 env e).2.cpu.w env.GB_REG_PC = (e.cpu.w env.GB_REG_PC + 1) % 65536 ∧
      (∀ j, j ≠ env.GB_REG_PC → (gb_emu_next_pc8 env e).2.cpu.w j = e.cpu.w j) ∧
      (gb_emu_next_pc8 env e).2.mmu = e.mmu ∧ (gb_emu_next_pc8 env e).2.gpu = e.gpu ∧
      (gb_emu_next_pc8 env e).2.rest = e.rest) ∧
    ((gb_emu_next_pc16 env e).1 =
        gb_emu_read16 env (gb_emu_next_pc16 env e).2 (e.cpu.w env.GB_REG_PC) ∧
      (reads_ignore_cpu env →
        (gb_emu_next_pc16 env e).1 = gb_emu_read16 env e (e.cpu.w env.GB_REG_PC)) ∧
      (gb_emu_next_pc16 env e).2.cpu.w env.GB_REG_PC = (e.cpu.w env.GB_REG_PC + 2) % 65536 ∧
      (∀ j, j ≠ env.GB_REG_PC → (gb_emu_next_pc16 env e).2.cpu.w j = e.cpu.w j) ∧
      (gb_emu_next_pc16 env e).2.mmu = e.mmu ∧ (gb_emu_next_pc16 env e).2.gpu = e.gpu ∧
      (gb_emu_next_pc16 env e).2.rest = e.rest) ∧
    (∀ p, e.mmu.mbc_controller = some p →
      (env.controller p).read8 = some (fun _ _ _ => 0x00) →
      e.cpu.w env.GB_REG_PC = 0x0100 →
      (gb_emu_next_pc8 env e).1 = some 0x00 ∧
      (gb_emu_next_pc8 env e).2.cpu.w env.GB_REG_PC = 0x0101) := by
  have hpc : ∀ k : Nat, (set_w e env.GB_REG_PC ((e.cpu.w env.GB_REG_PC : Int) + k)).cpu.w
      env.GB_REG_PC = (e.cpu.w env.GB_REG_PC + k) % 65536 := by
    intro k
    simp only [set_w, if_true, u16_add]
  have hother : ∀ (v : Int) (j : Nat), j ≠ env.GB_REG_PC →
      (set_w e env.GB_REG_PC v).cpu.w j = e.cpu.w j := by
    intro v j hj
    simp only [set_w, if_neg hj]
  refine ⟨⟨rfl, fun h => (h e _ _ _).1, hpc 1, hother _, rfl, rfl, rfl⟩,
    ⟨rfl, fun h => (h e _ _ _).2, hpc 2, hother _, rfl, rfl, rfl⟩, ?_⟩
  intro p hp hrd h100
  have key : ∀ e1 : gb_emu α, e1.mmu = e.mmu → gb_emu_read8 env e1 0x0100 = some 0x00 := by
    intro e1 h1
    have hres : get_mmu_entry e1 0x0100 = some (.ctrl p) := by
      rw [get_mmu_entry_rom e1 0x0100 (by decide), h1, hp]; rfl
    rw [gb_emu_read8_entry env hres]
    simp only [deref, call_read8, hrd]
    rfl
  refine ⟨?_, ?_⟩
  · exact (congrArg (gb_emu_read8 env
      (set_w e env.GB_REG_PC ((e.cpu.w env.GB_REG_PC : Int) + 1))) h100).trans (key _ rfl)
  · exact (hpc 1).trans (by rw [h100])

/-- C17 on the concrete instance (ROM stub reading 0x00, PC = 0x0100). -/
theorem C17_next_pc_fetch_witness :
    (gb_emu_next_pc8 demo_env demo_emu).1 = some 0x00 ∧
    (gb_emu_next_pc8 demo_env demo_emu).2.cpu.w demo_env.GB_REG_PC = 0x0101 :=
  (C17_next_pc_fetch demo_env demo_emu).2.2 0 rfl rfl rfl

/-- C18: the GPU timing constants add up to the frame: OAM (80) + VRAM (172) +
HBLANK (204) cycles are the 456 cycles of `GB_GPU_CLOCK_VBLANK`, one scanline;
144 visible scanlines and 10 scanlines of vertical blank make 154 scanlines and
70224 cycles. -/
theorem C18_gpu_frame_cycles :
    GB_GPU_CLOCK_OAM = 80 ∧ GB_GPU_CLOCK_VRAM = 172 ∧ GB_GPU_CLOCK_HBLANK = 204 ∧
    GB_GPU_CLOCK_OAM + GB_GPU_CLOCK_VRAM + GB_GPU_CLOCK_HBLANK = GB_GPU_CLOCK_VBLANK ∧
    GB_GPU_CLOCK_VBLANK = 456 ∧
    GB_SCREEN_HEIGHT * (GB_GPU_CLOCK_OAM + GB_GPU_CLOCK_VRAM + GB_GPU_CLOCK_HBLANK) +
      GB_GPU_VBLANK_LENGTH * GB_GPU_CLOCK_VBLANK = 70224 ∧
    144 * 456 + 10 * 456 = 70224 ∧
    GB_SCREEN_HEIGHT + GB_GPU_VBLANK_LENGTH = 154 := by
  decide

end claims

/-! ## The disassembler -/

/-- C19 fails on the code for the prefixed instructions: `gb_disasm_inst` indexes
the extended-prefix table with `bytes[0]`, the prefix 0xCB itself, so every
instruction (0xCB, b) is printed with the template number 0xCB of that table,
"SET 1, E", whatever `b` is; (0xCB, 0x00) does not give "RLC B", the template
number 0x00.  An unprefixed opcode is looked up in the primary table. -/
theorem C19_disasm_cb_prefix_ignores_opcode (b : Nat) :
    gb_disasm_inst (inst_bytes [0xCB, b]) = "SET 1, E" ∧
    gb_disasm_inst (inst_bytes [0xCB, b]) = (opcode_cb_decode_format_str 0xCB).format ∧
    (opcode_cb_decode_format_str 0x00).format = "RLC B" ∧
    gb_disasm_inst (inst_bytes [0xCB, 0x00]) ≠ (opcode_cb_decode_format_str 0x00).format ∧
    gb_disasm_inst (inst_bytes [0x00]) = (opcode_decode_format_str 0x00).format := by
  refine ⟨rfl, rfl, rfl, ?_, rfl⟩
  decide

/-! ## The character buffer -/

/-- A sum below twice the capacity wraps around at most once. -/
theorem mod_wrap {L x : Nat} (hx : x < 2 * L) : x % L = if x < L then x else x - L := by
  split
  · exact Nat.mod_eq_of_lt ‹_›
  · rw [Nat.mod_eq_sub_mod (by omega)]
    exact Nat.mod_eq_of_lt (by omega)

theorem char_buf_write_fields (buf : char_buf) (data : Nat → Nat) (m : Nat)
    (hwf : char_buf_wf buf) :
    (char_buf_write buf data m).len = buf.len ∧
    (char_buf_write buf data m).start_pos = buf.start_pos ∧
    (char_buf_write buf data m).buf_len = buf.buf_len + m := by
  obtain ⟨hL, hs, hn⟩ := hwf
  have hend := @mod_wrap buf.len (buf.start_pos + buf.buf_len) (by omega)
  unfold char_buf_write
  simp only [hend]
  split_ifs <;> simp <;> omega

theorem char_buf_write_buffer (buf : char_buf) (data : Nat → Nat) (m : Nat)
    (hwf : char_buf_wf buf) (hm : m ≤ buf.len - buf.buf_len) (k : Nat)
    (hk : k < buf.buf_len + m) :
    (char_buf_write buf data m).buffer ((buf.start_pos + k) % buf.len) =
      if k < buf.buf_len then buf.buffer ((buf.start_pos + k) % buf.len)
      else data (k - buf.buf_len) := by
  obtain ⟨hL, hs, hn⟩ := hwf
  have hend := @mod_wrap buf.len (buf.start_pos + buf.buf_len) (by omega)
  have hpos := @mod_wrap buf.len (buf.start_pos + k) (by omega)
  unfold char_buf_write
  simp only [hend, hpos, memcpy]
  split_ifs <;> simp only [memcpy] <;> split_ifs <;>
    first | rfl | (exfalso; omega) | (congr 1; omega)

theorem char_buf_read_empty (buf : char_buf) (dst : Nat → Nat) (r : Nat)
    (h0 : buf.buf_len = 0) : char_buf_read buf dst r = (0, dst, buf) := by
  unfold char_buf_read
  rw [if_pos h0]

theorem char_buf_read_nowrap (buf : char_buf) (dst : Nat → Nat) (r : Nat)
    (h0 : buf.buf_len ≠ 0) (h1 : min r buf.buf_len ≤ buf.len - buf.start_pos) :
    char_buf_read buf dst r =
      (min r buf.buf_len, memcpy dst 0 buf.buffer buf.start_pos (min r buf.buf_len),
        { buf with
          start_pos := if buf.start_pos + min r buf.buf_len = buf.len then 0
            else buf.start_pos + min r buf.buf_len
          buf_len := buf.buf_len - min r buf.buf_len }) := by
  have hmin : (if buf.buf_len < r then buf.buf_len else r) = min r buf.buf_len := by
    split <;> omega
  unfold char_buf_read
  simp only [if_neg h0, hmin, ge_iff_le, if_pos h1]

theorem char_buf_read_wrap (buf : char_buf) (dst : Nat → Nat) (r : Nat)
    (h0 : buf.buf_len ≠ 0) (hs : buf.start_pos < buf.len)
    (h1 : ¬ min r buf.buf_len ≤ buf.len - buf.start_pos) :
    char_buf_read buf dst r =
      (min r buf.buf_len,
        memcpy (memcpy dst 0 buf.buffer buf.start_pos (buf.len - buf.start_pos))
          (buf.len - buf.start_pos) buf.buffer 0
          (min r buf.buf_len - (buf.len - buf.start_pos)),
        { buf with
          start_pos := min r buf.buf_len - (buf.len - buf.start_pos)
          buf_len := buf.buf_len - (buf.len - buf.start_pos) -
            (min r buf.buf_len - (buf.len - buf.start_pos)) }) := by
  have hmin : (if buf.buf_len < r then buf.buf_len else r) = min r buf.buf_len := by
    split <;> omega
  have hfirst : buf.len - buf.start_pos > 0 := by omega
  unfold char_buf_read
  simp only [if_neg h0, hmin, ge_iff_le, if_neg h1, if_pos hfirst]

theorem char_buf_read_spec (buf : char_buf) (dst : Nat → Nat) (r : Nat)
    (hwf : char_buf_wf buf) :
    (char_buf_read buf dst r).1 = min r buf.buf_len ∧
    (∀ i, i < min r buf.buf_len →
      (char_buf_read buf dst r).2.1 i = buf.buffer ((buf.start_pos + i) % buf.len)) ∧
    (char_buf_read buf dst r).2.2.buf_len = buf.buf_len - min r buf.buf_len ∧
    (char_buf_read buf dst r).2.2.start_pos = (buf.start_pos + min r buf.buf_len) % buf.len ∧
    (char_buf_read buf dst r).2.2.len = buf.len ∧
    (char_buf_read buf dst r).2.2.buffer = buf.buffer := by
  obtain ⟨hL, hs, hn⟩ := hwf
  have hm1 : min r buf.buf_len ≤ buf.buf_len := Nat.min_le_right _ _
  have hstart := @mod_wrap buf.len (buf.start_pos + min r buf.buf_len) (by omega)
  by_cases h0 : buf.buf_len = 0
  · have hm0 : min r buf.buf_len = 0 := by omega
    rw [char_buf_read_empty buf dst r h0, hm0]
    refine ⟨rfl, fun i hi => absurd hi (Nat.not_lt_zero i), by simp [h0], ?_, rfl, rfl⟩
    simp [Nat.mod_eq_of_lt hs]
  · by_cases h1 : min r buf.buf_len ≤ buf.len - buf.start_pos
    · rw [char_buf_read_nowrap buf dst r h0 h1]
      refine ⟨rfl, ?_, rfl, ?_, rfl, rfl⟩
      · intro i hi
        have hpos := @mod_wrap buf.len (buf.start_pos + i) (by omega)
        have hlt : buf.start_pos + i < buf.len := by omega
        have hin : 0 ≤ i ∧ i < 0 + min r buf.buf_len := by omega
        rw [hpos, if_pos hlt]
        simp only [memcpy]
        rw [if_pos hin]
        congr 1
      · simp only [hstart]
        split_ifs <;> omega
    · rw [char_buf_read_wrap buf dst r h0 hs h1]
      refine ⟨rfl, ?_, ?_, ?_, rfl, rfl⟩
      · intro i hi
        have hpos := @mod_wrap buf.len (buf.start_pos + i) (by omega)
        rw [hpos]
        simp only [memcpy]
        split_ifs <;> first | rfl | (exfalso; omega) | (congr 1; omega)
      · simp only
        omega
      · simp only [hstart]
        split_ifs <;> omega

/-- C20: the character buffer is a FIFO with wrap-around.  For a well-formed
buffer and a byte sequence `d` that fits the free space, `char_buf_write` of `d`
followed by `char_buf_read` of `buf_len + |d|` bytes returns `buf_len + |d|`,
copies out the bytes that were unread, in their order, followed by `d`, and
leaves the buffer empty, wherever `start_pos` is and whether or not the data
wraps past the end of the backing array. -/
theorem C20_char_buf_fifo (buf : char_buf) (d : List Nat) (dst : Nat → Nat)
    (hwf : char_buf_wf buf) (hd : d.length ≤ buf.len - buf.buf_len) :
    (char_buf_read (char_buf_write buf (data_of d) d.length) dst
      (buf.buf_len + d.length)).1 = buf.buf_len + d.length ∧
    (List.range (buf.buf_len + d.length)).map
      (char_buf_read (char_buf_write buf (data_of d) d.length) dst
        (buf.buf_len + d.length)).2.1 = char_buf_contents buf ++ d ∧
    (char_buf_read (char_buf_write buf (data_of d) d.length) dst
      (buf.buf_len + d.length)).2.2.buf_len = 0 := by
  obtain ⟨hlen, hstart, hblen⟩ := char_buf_write_fields buf (data_of d) d.length hwf
  have hwf1 : char_buf_wf (char_buf_write buf (data_of d) d.length) := by
    obtain ⟨hL, hs, hn⟩ := hwf
    refine ⟨?_, ?_, ?_⟩
    · rw [hlen]; exact hL
    · rw [hlen, hstart]; exact hs
    · rw [hlen, hblen]; omega
  obtain ⟨hret, hout, hrest, -, -, -⟩ :=
    char_buf_read_spec (char_buf_write buf (data_of d) d.length) dst
      (buf.buf_len + d.length) hwf1
  rw [hblen, Nat.min_self] at hret hout hrest
  refine ⟨hret, ?_, by omega⟩
  apply List.ext_getElem
  · simp [char_buf_contents]
  · intro i h1 h2
    have hi : i < buf.buf_len + d.length := by simpa using h1
    rw [List.getElem_map, List.getElem_range, hout i hi, hstart, hlen,
      char_buf_write_buffer buf (data_of d) d.length hwf hd i hi]
    by_cases hc : i < buf.buf_len
    · rw [if_pos hc, List.getElem_append_left (by simpa [char_buf_contents] using hc)]
      simp [char_buf_contents]
    · rw [if_neg hc, List.getElem_append_right (by simpa [char_buf_contents] using hc)]
      have hj : i - buf.buf_len < d.length := by omega
      simp [char_buf_contents, data_of, List.getD_eq_getElem?_getD,
        List.getElem?_eq_getElem hj]

/-- C20 on a buffer of capacity 4 with the unread bytes 7, 8 at the positions
3, 0: the bytes 1, 2 are written at the positions 1, 2 and all four come out in
order. -/
theorem C20_char_buf_fifo_witness :
    char_buf_wf demo_buf ∧ [1, 2].length ≤ demo_buf.len - demo_buf.buf_len ∧
    (char_buf_read (char_buf_write demo_buf (data_of [1, 2]) [1, 2].length) (fun _ => 0)
      (demo_buf.buf_len + [1, 2].length)).1 = demo_buf.buf_len + [1, 2].length ∧
    (List.range (demo_buf.buf_len + [1, 2].length)).map
      (char_buf_read (char_buf_write demo_buf (data_of [1, 2]) [1, 2].length) (fun _ => 0)
        (demo_buf.buf_len + [1, 2].length)).2.1 = char_buf_contents demo_buf ++ [1, 2] ∧
    char_buf_contents demo_buf ++ [1, 2] = [7, 8, 1, 2] :=
  ⟨⟨by decide, by decide, by decide⟩, by decide,
   (C20_char_buf_fifo demo_buf [1, 2] (fun _ => 0) ⟨by decide, by decide, by decide⟩
      (by decide)).1,
   (C20_char_buf_fifo demo_buf [1, 2] (fun _ => 0) ⟨by decide, by decide, by decide⟩
      (by decide)).2.1,
   by decide⟩

/-! ## Work RAM and zero-page RAM, cell by cell -/

section ram
variable {α : Type}

theorem wram_bank1_sel_eq (env : Env α) (e : gb_emu α) :
    (if (!env.gb_emu_is_cgb e || e.mmu.cgb_wram_bank_no == 0) = true then 1
      else e.mmu.cgb_wram_bank_no) = wram_bank1_sel env e := by
  unfold wram_bank1_sel
  cases env.gb_emu_is_cgb e <;> by_cases h : e.mmu.cgb_wram_bank_no = 0 <;> simp [h]

theorem wram_bank1_sel_ne_zero (env : Env α) (e : gb_emu α) : wram_bank1_sel env e ≠ 0 := by
  unfold wram_bank1_sel
  split
  · rename_i h; exact h.2
  · decide

theorem gb_emu_read8_wram0 (env : Env α) (e : gb_emu α) (a : Nat)
    (h1 : 0xC000 ≤ a) (h2 : a ≤ 0xCFFF) :
    gb_emu_read8 env e a = some (u8 (e.mmu.wram 0 (a - 0xC000))) := by
  have hoff : u16 ((a : Int) - (0xC000 : Nat)) = a - 0xC000 := u16_sub h1 (by omega)
  rw [gb_emu_read8_entry env (get_mmu_entry_wram0 e a h1 h2)]
  simp only [deref, mmu_entries_wram0, call_read8, hoff, wram_bank0_read8]

theorem gb_emu_read8_wram1 (env : Env α) (e : gb_emu α) (a : Nat)
    (h1 : 0xD000 ≤ a) (h2 : a ≤ 0xDFFF) :
    gb_emu_read8 env e a = some (u8 (e.mmu.wram (wram_bank1_sel env e) (a - 0xD000))) := by
  have hoff : u16 ((a : Int) - (0xD000 : Nat)) = a - 0xD000 := u16_sub h1 (by omega)
  rw [gb_emu_read8_entry env (get_mmu_entry_wram1 e a h1 h2)]
  simp only [deref, mmu_entries_wram1, call_read8, hoff, wram_bank1_read8_eq,
    wram_bank1_sel_eq]

theorem gb_emu_read8_zram (env : Env α) (e : gb_emu α) (a : Nat)
    (h1 : 0xFF80 ≤ a) (h2 : a ≤ 0xFFFE) :
    gb_emu_read8 env e a = some (u8 (e.mmu.zram (a - 0xFF80))) := by
  have hoff : u16 ((a : Int) - (0xFF80 : Nat)) = a - 0xFF80 := u16_sub h1 (by omega)
  rw [gb_emu_read8_entry env (get_mmu_entry_zram e a h1 h2)]
  simp only [deref, mmu_entries_zram, call_read8, hoff, zram_read8]

theorem gb_emu_write8_wram0 (env : Env α) (e : gb_emu α) (a v : Nat)
    (h1 : 0xC000 ≤ a) (h2 : a ≤ 0xCFFF) :
    gb_emu_write8 env e a v = some (wram_store e 0 (a - 0xC000) (u8 v)) := by
  have hoff : u16 ((a : Int) - (0xC000 : Nat)) = a - 0xC000 := u16_sub h1 (by omega)
  rw [gb_emu_write8_entry env v (get_mmu_entry_wram0 e a h1 h2)]
  simp only [deref, mmu_entries_wram0, call_write8, hoff, wram_bank0_write8]

theorem gb_emu_write8_wram1 (env : Env α) (e : gb_emu α) (a v : Nat)
    (h1 : 0xD000 ≤ a) (h2 : a ≤ 0xDFFF) :
    gb_emu_write8 env e a v =
      some (wram_store e (wram_bank1_sel env e) (a - 0xD000) (u8 v)) := by
  have hoff : u16 ((a : Int) - (0xD000 : Nat)) = a - 0xD000 := u16_sub h1 (by omega)
  rw [gb_emu_write8_entry env v (get_mmu_entry_wram1 e a h1 h2)]
  simp only [deref, mmu_entries_wram1, call_write8, hoff, wram_bank1_write8_eq,
    wram_bank1_sel_eq]

theorem gb_emu_write8_zram (env : Env α) (e : gb_emu α) (a v : Nat)
    (h1 : 0xFF80 ≤ a) (h2 : a ≤ 0xFFFE) :
    gb_emu_write8 env e a v = some (zram_write8 e (a - 0xFF80) 0xFF80 (u8 v)) := by
  have hoff : u16 ((a : Int) - (0xFF80 : Nat)) = a - 0xFF80 := u16_sub h1 (by omega)
  rw [gb_emu_write8_entry env v (get_mmu_entry_zram e a h1 h2)]
  simp only [deref, mmu_entries_zram, call_write8, hoff]

/-- C21: work-RAM bank selection.  For `k` in [0, 0xFFF] a read at `0xD000 + k`
returns `wram[b][k]` and a write there stores the byte in `wram[b][k]`, where `b`
is `cgb_wram_bank_no` in CGB mode when that number is not 0 and 1 otherwise; an
access at `0xC000 + k` uses `wram[0][k]` whatever the selection; `b` is never 0,
so bank 0 is not reachable through 0xD000-0xDFFF. -/
theorem C21_wram_bank_selection (env : Env α) (e : gb_emu α) (k v : Nat)
    (hk : k ≤ 0xFFF) (hv : v < 256) :
    wram_bank1_sel env e ≠ 0 ∧
    gb_emu_read8 env e (0xD000 + k) = some (u8 (e.mmu.wram (wram_bank1_sel env e) k)) ∧
    (e.mmu.wram (wram_bank1_sel env e) k < 256 →
      gb_emu_read8 env e (0xD000 + k) = some (e.mmu.wram (wram_bank1_sel env e) k)) ∧
    gb_emu_write8 env e (0xD000 + k) v = some (wram_store e (wram_bank1_sel env e) k v) ∧
    (wram_store e (wram_bank1_sel env e) k v).mmu.wram (wram_bank1_sel env e) k = v ∧
    gb_emu_read8 env e (0xC000 + k) = some (u8 (e.mmu.wram 0 k)) ∧
    (e.mmu.wram 0 k < 256 → gb_emu_read8 env e (0xC000 + k) = some (e.mmu.wram 0 k)) ∧
    gb_emu_write8 env e (0xC000 + k) v = some (wram_store e 0 k v) ∧
    (wram_store e 0 k v).mmu.wram 0 k = v := by
  have hD : 0xD000 + k - 0xD000 = k := by omega
  have hC : 0xC000 + k - 0xC000 = k := by omega
  have hr1 := gb_emu_read8_wram1 env e (0xD000 + k) (by omega) (by omega)
  have hr0 := gb_emu_read8_wram0 env e (0xC000 + k) (by omega) (by omega)
  have hw1 := gb_emu_write8_wram1 env e (0xD000 + k) v (by omega) (by omega)
  have hw0 := gb_emu_write8_wram0 env e (0xC000 + k) v (by omega) (by omega)
  rw [hD] at hr1 hw1
  rw [hC] at hr0 hw0
  rw [u8_of_lt hv] at hw1 hw0
  refine ⟨wram_bank1_sel_ne_zero env e, hr1, fun h => ?_, hw1, ?_, hr0, fun h => ?_, hw0, ?_⟩
  · rw [hr1, u8_of_lt h]
  · simp [wram_store_read]
  · rw [hr0, u8_of_lt h]
  · simp [wram_store_read]

/-- C21 at `k = 0x123` of the concrete CGB instance with bank 3 selected. -/
theorem C21_wram_bank_selection_witness :
    (0x123 : Nat) ≤ 0xFFF ∧ (0xAB : Nat) < 256 ∧ wram_bank1_sel demo_env cgb_emu = 3 ∧
    gb_emu_write8 demo_env cgb_emu (0xD000 + 0x123) 0xAB =
      some (wram_store cgb_emu (wram_bank1_sel demo_env cgb_emu) 0x123 0xAB) ∧
    gb_emu_read8 demo_env cgb_emu (0xC000 + 0x123) = some (u8 (cgb_emu.mmu.wram 0 0x123)) :=
  ⟨by decide, by decide, by decide,
   (C21_wram_bank_selection demo_env cgb_emu 0x123 0xAB (by decide) (by decide)).2.2.2.1,
   (C21_wram_bank_selection demo_env cgb_emu 0x123 0xAB (by decide) (by decide)).2.2.2.2.2.1⟩

end ram

section ram2
variable {α : Type}

/-- A read in work RAM or zero-page RAM after a store to work RAM. -/
theorem gb_emu_read8_after_wram_store (env : Env α) (e : gb_emu α) (b off v a2 : Nat)
    (hsel : wram_bank1_sel env (wram_store e b off v) = wram_bank1_sel env e)
    (hwin : (0xC000 ≤ a2 ∧ a2 ≤ 0xDFFF) ∨ (0xFF80 ≤ a2 ∧ a2 ≤ 0xFFFE))
    (h0 : a2 ≤ 0xCFFF → ¬ (0 = b ∧ a2 - 0xC000 = off))
    (h1 : 0xD000 ≤ a2 → a2 ≤ 0xDFFF → ¬ (wram_bank1_sel env e = b ∧ a2 - 0xD000 = off)) :
    gb_emu_read8 env (wram_store e b off v) a2 = gb_emu_read8 env e a2 := by
  have hcases : (0xC000 ≤ a2 ∧ a2 ≤ 0xCFFF) ∨ (0xD000 ≤ a2 ∧ a2 ≤ 0xDFFF) ∨
      (0xFF80 ≤ a2 ∧ a2 ≤ 0xFFFE) := by omega
  rcases hcases with h | h | h
  · rw [gb_emu_read8_wram0 env _ a2 h.1 h.2, gb_emu_read8_wram0 env e a2 h.1 h.2,
      wram_store_read, if_neg (h0 h.2)]
  · rw [gb_emu_read8_wram1 env _ a2 h.1 h.2, gb_emu_read8_wram1 env e a2 h.1 h.2, hsel,
      wram_store_read, if_neg (h1 h.1 h.2)]
  · rw [gb_emu_read8_zram env _ a2 h.1 h.2, gb_emu_read8_zram env e a2 h.1 h.2]
    rfl

/-- A read in work RAM or zero-page RAM after a store to zero-page RAM. -/
theorem gb_emu_read8_after_zram_write (env : Env α) (e : gb_emu α) (off low v a2 : Nat)
    (hsel : wram_bank1_sel env (zram_write8 e off low v) = wram_bank1_sel env e)
    (hwin : (0xC000 ≤ a2 ∧ a2 ≤ 0xDFFF) ∨ (0xFF80 ≤ a2 ∧ a2 ≤ 0xFFFE))
    (hz : 0xFF80 ≤ a2 → a2 - 0xFF80 ≠ off) :
    gb_emu_read8 env (zram_write8 e off low v) a2 = gb_emu_read8 env e a2 := by
  have hcases : (0xC000 ≤ a2 ∧ a2 ≤ 0xCFFF) ∨ (0xD000 ≤ a2 ∧ a2 ≤ 0xDFFF) ∨
      (0xFF80 ≤ a2 ∧ a2 ≤ 0xFFFE) := by omega
  rcases hcases with h | h | h
  · rw [gb_emu_read8_wram0 env _ a2 h.1 h.2, gb_emu_read8_wram0 env e a2 h.1 h.2]
    rfl
  · rw [gb_emu_read8_wram1 env _ a2 h.1 h.2, gb_emu_read8_wram1 env e a2 h.1 h.2, hsel]
    rfl
  · rw [gb_emu_read8_zram env _ a2 h.1 h.2, gb_emu_read8_zram env e a2 h.1 h.2]
    simp only [zram_write8, if_neg (hz h.1)]

/-- The bank selected for 0xD000-0xDFFF depends on the CGB mode and on
`cgb_wram_bank_no` only. -/
theorem wram_bank1_sel_congr (env : Env α) (e e1 : gb_emu α)
    (hc : env.gb_emu_is_cgb e1 = env.gb_emu_is_cgb e)
    (hb : e1.mmu.cgb_wram_bank_no = e.mmu.cgb_wram_bank_no) :
    wram_bank1_sel env e1 = wram_bank1_sel env e := by
  unfold wram_bank1_sel
  rw [hc, hb]

/-- C22: for every address `a` of a fixed region `gb_emu_read8` and
`gb_emu_write8` call the handler of the region with the offset `a - low`, which
is at most `high - low`, and with `low` as third argument (offset + low = a).
The work-RAM handlers get an offset below 0x1000 (below 0xE00 through the echo
0xF000-0xFDFF), the zero-page handler one below 0x7F, the sprite handler one
below 0xA0 and the VRAM handler one below 0x2000. -/
theorem C22_handler_offsets_in_range (env : Env α) (e : gb_emu α) (a v : Nat)
    (ha : a < 0x10000) (hv : v < 256)
    (hw : (0x8000 ≤ a ∧ a ≤ 0x9FFF) ∨ 0xC000 ≤ a) :
    ∃ i, i < mmu_entries_len ∧ get_mmu_entry e a = some (.table i) ∧
      (mmu_entries env i).low ≤ a ∧
      a - (mmu_entries env i).low ≤ (mmu_entries env i).high - (mmu_entries env i).low ∧
      a - (mmu_entries env i).low + (mmu_entries env i).low = a ∧
      gb_emu_read8 env e a =
        call_read8 (mmu_entries env i) e (a - (mmu_entries env i).low)
          (mmu_entries env i).low ∧
      gb_emu_write8 env e a v =
        call_write8 (mmu_entries env i) e (a - (mmu_entries env i).low)
          (mmu_entries env i).low v ∧
      (i = GB_MMU_WRAM_BANK0 ∨ i = GB_MMU_WRAM_BANK1 ∨ i = GB_MMU_WRAM_ECHO_BANK0 →
        a - (mmu_entries env i).low < 0x1000) ∧
      (i = GB_MMU_WRAM_ECHO_BANK1 → a - (mmu_entries env i).low < 0xE00) ∧
      (i = GB_MMU_ZRAM → a - (mmu_entries env i).low < 0x7F) ∧
      (i = GB_MMU_SPRITE → a - (mmu_entries env i).low < 0xA0) ∧
      (i = GB_MMU_VRAM → a - (mmu_entries env i).low < 0x2000) := by
  obtain ⟨i, hi, hres, _, hlo, hhi⟩ := get_mmu_entry_fixed env e a ha hw
  have hoff : u16 ((a : Int) - (mmu_entries env i).low) = a - (mmu_entries env i).low :=
    u16_sub hlo ha
  refine ⟨i, hi, hres, hlo, by omega, by omega, ?_, ?_, ?_, ?_, ?_, ?_, ?_⟩
  · rw [gb_emu_read8_entry env hres]
    simp only [deref, hoff]
  · rw [gb_emu_write8_entry env v hres]
    simp only [deref, hoff, u8_of_lt hv]
  · rintro (h | h | h) <;> subst h
    · rw [mmu_entries_wram0] at hhi ⊢; simp only at hhi ⊢; omega
    · rw [mmu_entries_wram1] at hhi ⊢; simp only at hhi ⊢; omega
    · rw [mmu_entries_echo0] at hhi ⊢; simp only at hhi ⊢; omega
  · intro h; subst h
    rw [mmu_entries_echo1] at hhi ⊢; simp only at hhi ⊢; omega
  · intro h; subst h
    rw [mmu_entries_zram] at hhi ⊢; simp only at hhi ⊢; omega
  · intro h; subst h
    rw [mmu_entries_sprite] at hhi ⊢; simp only at hhi ⊢; omega
  · intro h; subst h
    rw [mmu_entries_vram] at hhi ⊢; simp only at hhi ⊢; omega

/-- C23: a RAM write touches one cell.  With the work-RAM bank selection the
same before and after the write, a write at `a` in 0xC000-0xDFFF or
0xFF80-0xFFFE leaves the read at every other address `a2` of these windows as
it was, and changes no GPU register, no CPU register (the PC among them) and
not `mmu.bios_flag`. -/
theorem C23_ram_write_one_cell (env : Env α) (e : gb_emu α) (a a2 v : Nat)
    (hwa : (0xC000 ≤ a ∧ a ≤ 0xDFFF) ∨ (0xFF80 ≤ a ∧ a ≤ 0xFFFE))
    (hwa2 : (0xC000 ≤ a2 ∧ a2 ≤ 0xDFFF) ∨ (0xFF80 ≤ a2 ∧ a2 ≤ 0xFFFE))
    (hne : a2 ≠ a)
    (hfix : ∀ e1, gb_emu_write8 env e a v = some e1 →
      env.gb_emu_is_cgb e1 = env.gb_emu_is_cgb e) :
    ∃ e1, gb_emu_write8 env e a v = some e1 ∧
      gb_emu_read8 env e1 a2 = gb_emu_read8 env e a2 ∧
      e1.gpu = e.gpu ∧ e1.cpu = e.cpu ∧ e1.mmu.bios_flag = e.mmu.bios_flag ∧
      e1.mmu.cgb_wram_bank_no = e.mmu.cgb_wram_bank_no ∧
      e1.mmu.mbc_controller = e.mmu.mbc_controller ∧
      e1.mmu.eram_controller = e.mmu.eram_controller ∧ e1.rest = e.rest := by
  have hcases : (0xC000 ≤ a ∧ a ≤ 0xCFFF) ∨ (0xD000 ≤ a ∧ a ≤ 0xDFFF) ∨
      (0xFF80 ≤ a ∧ a ≤ 0xFFFE) := by omega
  have hnz := wram_bank1_sel_ne_zero env e
  rcases hcases with h | h | h
  · have hw := gb_emu_write8_wram0 env e a v h.1 h.2
    have hsel := wram_bank1_sel_congr env e _ (hfix _ hw) rfl
    refine ⟨_, hw, ?_, rfl, rfl, rfl, rfl, rfl, rfl, rfl⟩
    exact gb_emu_read8_after_wram_store env e _ _ _ a2 hsel hwa2
      (fun _ hc => by omega) (fun _ _ hc => hnz hc.1)
  · have hw := gb_emu_write8_wram1 env e a v h.1 h.2
    have hsel := wram_bank1_sel_congr env e _ (hfix _ hw) rfl
    refine ⟨_, hw, ?_, rfl, rfl, rfl, rfl, rfl, rfl, rfl⟩
    exact gb_emu_read8_after_wram_store env e _ _ _ a2 hsel hwa2
      (fun _ hc => hnz hc.1.symm) (fun _ _ hc => by omega)
  · have hw := gb_emu_write8_zram env e a v h.1 h.2
    have hsel := wram_bank1_sel_congr env e _ (hfix _ hw) rfl
    refine ⟨_, hw, ?_, rfl, rfl, rfl, rfl, rfl, rfl, rfl⟩
    exact gb_emu_read8_after_zram_write env e _ _ _ a2 hsel hwa2 (fun _ => by omega)

/-- C22 at 0xFFFE of the concrete instance: the last zero-page address, offset
0x7E. -/
theorem C22_handler_offsets_in_range_witness :
    (0xFFFE : Nat) < 0x10000 ∧ (0x11 : Nat) < 256 ∧
    ∃ i, i < mmu_entries_len ∧ get_mmu_entry demo_emu 0xFFFE = some (.table i) ∧
      (mmu_entries demo_env i).low ≤ 0xFFFE ∧
      0xFFFE - (mmu_entries demo_env i).low ≤
        (mmu_entries demo_env i).high - (mmu_entries demo_env i).low ∧
      0xFFFE - (mmu_entries demo_env i).low + (mmu_entries demo_env i).low = 0xFFFE ∧
      gb_emu_read8 demo_env demo_emu 0xFFFE =
        call_read8 (mmu_entries demo_env i) demo_emu (0xFFFE - (mmu_entries demo_env i).low)
          (mmu_entries demo_env i).low ∧
      gb_emu_write8 demo_env demo_emu 0xFFFE 0x11 =
        call_write8 (mmu_entries demo_env i) demo_emu
          (0xFFFE - (mmu_entries demo_env i).low) (mmu_entries demo_env i).low 0x11 ∧
      (i = GB_MMU_WRAM_BANK0 ∨ i = GB_MMU_WRAM_BANK1 ∨ i = GB_MMU_WRAM_ECHO_BANK0 →
        0xFFFE - (mmu_entries demo_env i).low < 0x1000) ∧
      (i = GB_MMU_WRAM_ECHO_BANK1 → 0xFFFE - (mmu_entries demo_env i).low < 0xE00) ∧
      (i = GB_MMU_ZRAM → 0xFFFE - (mmu_entries demo_env i).low < 0x7F) ∧
      (i = GB_MMU_SPRITE → 0xFFFE - (mmu_entries demo_env i).low < 0xA0) ∧
      (i = GB_MMU_VRAM → 0xFFFE - (mmu_entries demo_env i).low < 0x2000) :=
  ⟨by decide, by decide,
   C22_handler_offsets_in_range demo_env demo_emu 0xFFFE 0x11 (by decide) (by decide)
     (Or.inr (by decide))⟩

/-- C23 on the concrete CGB instance: a write at 0xD005 (bank 3) leaves the read
at 0xC005 (bank 0) as it was. -/
theorem C23_ram_write_one_cell_witness :
    ((0xC000 ≤ 0xD005 ∧ 0xD005 ≤ 0xDFFF) ∨ (0xFF80 ≤ 0xD005 ∧ 0xD005 ≤ 0xFFFE)) ∧
    (0xC005 : Nat) ≠ 0xD005 ∧
    ∃ e1, gb_emu_write8 demo_env cgb_emu 0xD005 0x01 = some e1 ∧
      gb_emu_read8 demo_env e1 0xC005 = gb_emu_read8 demo_env cgb_emu 0xC005 ∧
      e1.gpu = cgb_emu.gpu ∧ e1.cpu = cgb_emu.cpu ∧
      e1.mmu.bios_flag = cgb_emu.mmu.bios_flag ∧
      e1.mmu.cgb_wram_bank_no = cgb_emu.mmu.cgb_wram_bank_no ∧
      e1.mmu.mbc_controller = cgb_emu.mmu.mbc_controller ∧
      e1.mmu.eram_controller = cgb_emu.mmu.eram_controller ∧ e1.rest = cgb_emu.rest :=
  ⟨Or.inl ⟨by decide, by decide⟩, by decide,
   C23_ram_write_one_cell demo_env cgb_emu 0xD005 0xC005 0x01
     (Or.inl ⟨by decide, by decide⟩) (Or.inl ⟨by decide, by decide⟩) (by decide)
     (fun e1 h => by
       rw [gb_emu_write8_wram1 demo_env cgb_emu 0xD005 0x01 (by decide) (by decide)] at h
       cases h
       rfl)⟩

end ram2

/-! ## The character buffer: invariant, read, byte-at-a-time write -/

theorem char_buf_read_rest (buf : char_buf) (dst : Nat → Nat) (r : Nat)
    (hwf : char_buf_wf buf) (i : Nat) (hi : min r buf.buf_len ≤ i) :
    (char_buf_read buf dst r).2.1 i = dst i := by
  obtain ⟨hL, hs, hn⟩ := hwf
  have hm1 : min r buf.buf_len ≤ buf.buf_len := Nat.min_le_right _ _
  by_cases h0 : buf.buf_len = 0
  · rw [char_buf_read_empty buf dst r h0]
  · by_cases h1 : min r buf.buf_len ≤ buf.len - buf.start_pos
    · rw [char_buf_read_nowrap buf dst r h0 h1]
      have hout : ¬ (0 ≤ i ∧ i < 0 + min r buf.buf_len) := by omega
      simp only [memcpy, if_neg hout]
    · rw [char_buf_read_wrap buf dst r h0 hs h1]
      simp only [memcpy]
      split_ifs <;> first | rfl | (exfalso; omega)

theorem char_buf_eq {a b : char_buf} (h1 : a.buffer = b.buffer) (h2 : a.len = b.len)
    (h3 : a.start_pos = b.start_pos) (h4 : a.buf_len = b.buf_len) : a = b := by
  cases a; cases b; simp_all

theorem data_of_cons (x : Nat) (xs : List Nat) (i : Nat) :
    data_of (x :: xs) i = if i = 0 then x else data_of xs (i - 1) := by
  cases i with
  | zero => rfl
  | succ j => simp [data_of]

/-- The backing array after `m` bytes of `data` are appended to the unread
bytes: the cells from the end position on, wrapping to the start of the array,
hold the data; the other cells are as before. -/
theorem char_buf_write_buffer_eq (buf : char_buf) (data : Nat → Nat) (m : Nat)
    (hwf : char_buf_wf buf) (hm : m ≤ buf.len - buf.buf_len) :
    (char_buf_write buf data m).buffer =
      fun j =>
        if (buf.start_pos + buf.buf_len) % buf.len ≤ j ∧
            j < (buf.start_pos + buf.buf_len) % buf.len + m ∧ j < buf.len then
          data (j - (buf.start_pos + buf.buf_len) % buf.len)
        else if j + buf.len < (buf.start_pos + buf.buf_len) % buf.len + m then
          data (j + buf.len - (buf.start_pos + buf.buf_len) % buf.len)
        else buf.buffer j := by
  obtain ⟨hL, hs, hn⟩ := hwf
  have hend := @mod_wrap buf.len (buf.start_pos + buf.buf_len) (by omega)
  funext j
  unfold char_buf_write
  simp only [hend]
  split_ifs <;> simp only [memcpy] <;> split_ifs <;>
    first | rfl | (exfalso; omega) | (congr 1; omega)

theorem char_buf_write_chars_fields (d : List Nat) (buf : char_buf) :
    (char_buf_write_chars buf d).len = buf.len ∧
    (char_buf_write_chars buf d).start_pos = buf.start_pos ∧
    (char_buf_write_chars buf d).buf_len = buf.buf_len + d.length := by
  induction d generalizing buf with
  | nil => exact ⟨rfl, rfl, rfl⟩
  | cons x xs ih =>
    obtain ⟨h1, h2, h3⟩ := ih (char_buf_write_char buf x)
    refine ⟨h1, h2, ?_⟩
    show (char_buf_write_chars (char_buf_write_char buf x) xs).buf_len = _
    rw [h3]
    simp only [char_buf_write_char, List.length_cons]
    omega

theorem char_buf_write_chars_buffer (d : List Nat) (buf : char_buf)
    (hwf : char_buf_wf buf) (hm : d.length ≤ buf.len - buf.buf_len) :
    (char_buf_write_chars buf d).buffer =
      fun j =>
        if (buf.start_pos + buf.buf_len) % buf.len ≤ j ∧
            j < (buf.start_pos + buf.buf_len) % buf.len + d.length ∧ j < buf.len then
          data_of d (j - (buf.start_pos + buf.buf_len) % buf.len)
        else if j + buf.len < (buf.start_pos + buf.buf_len) % buf.len + d.length then
          data_of d (j + buf.len - (buf.start_pos + buf.buf_len) % buf.len)
        else buf.buffer j := by
  induction d generalizing buf with
  | nil =>
    obtain ⟨hL, hs, hn⟩ := hwf
    have hend := @mod_wrap buf.len (buf.start_pos + buf.buf_len) (by omega)
    funext j
    simp only [char_buf_write_chars, List.foldl_nil, List.length_nil, hend]
    split_ifs <;> first | rfl | (exfalso; omega)
  | cons x xs ih =>
    obtain ⟨hL, hs, hn⟩ := hwf
    simp only [List.length_cons] at hm
    have hwf1 : char_buf_wf (char_buf_write_char buf x) := by
      refine ⟨hL, hs, ?_⟩
      simp only [char_buf_write_char]
      omega
    have hm1 : xs.length ≤ (char_buf_write_char buf x).len -
        (char_buf_write_char buf x).buf_len := by
      simp only [char_buf_write_char]
      omega
    have hend := @mod_wrap buf.len (buf.start_pos + buf.buf_len) (by omega)
    have hend1 := @mod_wrap buf.len (buf.start_pos + (buf.buf_len + 1)) (by omega)
    show (char_buf_write_chars (char_buf_write_char buf x) xs).buffer = _
    rw [ih (char_buf_write_char buf x) hwf1 hm1]
    funext j
    simp only [char_buf_write_char, List.length_cons, data_of_cons, hend, hend1]
    split_ifs <;> first | rfl | (exfalso; omega) | (congr 1; omega)

/-- C24: well-formedness of the character buffer (`len > 0`, `start_pos < len`,
`buf_len ≤ len`) holds after `char_buf_init` with a non-zero size and is kept by
`char_buf_read` for every requested length, by `char_buf_read_char`, by
`char_buf_write` for a data length of at most `len - buf_len`, and by
`char_buf_write_char` when `buf_len < len`. -/
theorem C24_char_buf_wf_preserved (buf : char_buf) (nbuffer dst data : Nat → Nat)
    (size n m c : Nat) :
    (0 < size → char_buf_wf (char_buf_init nbuffer size)) ∧
    (char_buf_wf buf → char_buf_wf (char_buf_read buf dst n).2.2) ∧
    (char_buf_wf buf → char_buf_wf (char_buf_read_char buf).2) ∧
    (char_buf_wf buf → m ≤ buf.len - buf.buf_len →
      char_buf_wf (char_buf_write buf data m)) ∧
    (char_buf_wf buf → buf.buf_len < buf.len →
      char_buf_wf (char_buf_write_char buf c)) := by
  refine ⟨fun h => ⟨h, h, Nat.zero_le _⟩, ?_, ?_, ?_, ?_⟩
  · intro hwf
    obtain ⟨-, -, hbl, hsp, hlen, -⟩ := char_buf_read_spec buf dst n hwf
    obtain ⟨hL, hs, hn⟩ := hwf
    refine ⟨?_, ?_, ?_⟩
    · rw [hlen]; exact hL
    · rw [hlen, hsp]; exact Nat.mod_lt _ hL
    · rw [hlen, hbl]; omega
  · rintro ⟨hL, hs, hn⟩
    unfold char_buf_read_char
    split
    · exact ⟨hL, hs, hn⟩
    · refine ⟨hL, ?_, ?_⟩
      · simp only
        split <;> omega
      · simp only
        omega
  · intro hwf hm
    obtain ⟨hlen, hsp, hbl⟩ := char_buf_write_fields buf data m hwf
    obtain ⟨hL, hs, hn⟩ := hwf
    refine ⟨?_, ?_, ?_⟩
    · rw [hlen]; exact hL
    · rw [hlen, hsp]; exact hs
    · rw [hlen, hbl]; omega
  · rintro ⟨hL, hs, hn⟩ hlt
    refine ⟨hL, hs, ?_⟩
    simp only [char_buf_write_char]
    omega

/-- C24 on the wrapping buffer of capacity 4. -/
theorem C24_char_buf_wf_preserved_witness :
    char_buf_wf wrap_buf ∧ 2 ≤ wrap_buf.len - wrap_buf.buf_len ∧
    char_buf_wf (char_buf_init (fun _ => 0) 4) ∧
    char_buf_wf (char_buf_read wrap_buf (fun _ => 0) 5).2.2 ∧
    char_buf_wf (char_buf_read_char wrap_buf).2 ∧
    char_buf_wf (char_buf_write wrap_buf (data_of [1, 2]) 2) ∧
    char_buf_wf (char_buf_write_char wrap_buf 1) :=
  ⟨⟨by decide, by decide, by decide⟩, by decide,
   (C24_char_buf_wf_preserved wrap_buf (fun _ => 0) (fun _ => 0) (data_of [1, 2]) 4 5 2 1).1
     (by decide),
   (C24_char_buf_wf_preserved wrap_buf (fun _ => 0) (fun _ => 0) (data_of [1, 2]) 4 5 2 1).2.1
     ⟨by decide, by decide, by decide⟩,
   (C24_char_buf_wf_preserved wrap_buf (fun _ => 0) (fun _ => 0) (data_of [1, 2]) 4 5 2
     1).2.2.1 ⟨by decide, by decide, by decide⟩,
   (C24_char_buf_wf_preserved wrap_buf (fun _ => 0) (fun _ => 0) (data_of [1, 2]) 4 5 2
     1).2.2.2.1 ⟨by decide, by decide, by decide⟩ (by decide),
   (C24_char_buf_wf_preserved wrap_buf (fun _ => 0) (fun _ => 0) (data_of [1, 2]) 4 5 2
     1).2.2.2.2 ⟨by decide, by decide, by decide⟩ (by decide)⟩

/-- C25: for a well-formed buffer and a requested length `n`, `char_buf_read`
returns `min n buf_len`, copies out that many bytes, the oldest unread bytes in
their order, and leaves the rest of the destination alone; it decreases
`buf_len` by that amount and advances `start_pos` by it modulo `len`, the backing
array and the capacity staying as they are; on an empty buffer it returns 0 and
changes neither the buffer nor the destination. -/
theorem C25_char_buf_read (buf : char_buf) (dst : Nat → Nat) (n : Nat)
    (hwf : char_buf_wf buf) :
    (char_buf_read buf dst n).1 = min n buf.buf_len ∧
    (List.range (min n buf.buf_len)).map (char_buf_read buf dst n).2.1 =
      (char_buf_contents buf).take (min n buf.buf_len) ∧
    (∀ i, min n buf.buf_len ≤ i → (char_buf_read buf dst n).2.1 i = dst i) ∧
    (char_buf_read buf dst n).2.2.buf_len = buf.buf_len - min n buf.buf_len ∧
    (char_buf_read buf dst n).2.2.start_pos = (buf.start_pos + min n buf.buf_len) % buf.len ∧
    (char_buf_read buf dst n).2.2.len = buf.len ∧
    (char_buf_read buf dst n).2.2.buffer = buf.buffer ∧
    (buf.buf_len = 0 → char_buf_read buf dst n = (0, dst, buf)) := by
  obtain ⟨hret, hout, hbl, hsp, hlen, hbuf⟩ := char_buf_read_spec buf dst n hwf
  refine ⟨hret, ?_, fun i hi => char_buf_read_rest buf dst n hwf i hi, hbl, hsp, hlen, hbuf,
    char_buf_read_empty buf dst n⟩
  have hm1 : min n buf.buf_len ≤ buf.buf_len := Nat.min_le_right _ _
  apply List.ext_getElem
  · simp [char_buf_contents]
  · intro i h1 h2
    have hi : i < min n buf.buf_len := by simpa using h1
    rw [List.getElem_map, List.getElem_range, hout i hi, List.getElem_take]
    simp [char_buf_contents]

/-- C25 on the buffer of capacity 4 with the unread bytes 7, 8 at the positions
3, 0: a read of 5 bytes returns 2, the bytes 7, 8, and wraps `start_pos` to 1. -/
theorem C25_char_buf_read_witness :
    char_buf_wf demo_buf ∧
    (char_buf_read demo_buf (fun _ => 0) 5).1 = min 5 demo_buf.buf_len ∧
    (List.range (min 5 demo_buf.buf_len)).map (char_buf_read demo_buf (fun _ => 0) 5).2.1 =
      (char_buf_contents demo_buf).take (min 5 demo_buf.buf_len) ∧
    (char_buf_contents demo_buf).take (min 5 demo_buf.buf_len) = [7, 8] ∧
    (char_buf_read demo_buf (fun _ => 0) 5).2.2.start_pos = 1 :=
  ⟨⟨by decide, by decide, by decide⟩,
   (C25_char_buf_read demo_buf (fun _ => 0) 5 ⟨by decide, by decide, by decide⟩).1,
   (C25_char_buf_read demo_buf (fun _ => 0) 5 ⟨by decide, by decide, by decide⟩).2.1,
   by decide, by decide⟩

/-- C26: bulk write agrees with byte-at-a-time write.  For a well-formed buffer
and a byte sequence `d` that fits the free space, `char_buf_write` of `d` leaves
the buffer (backing array, capacity, `start_pos`, `buf_len`) in the state reached
by `char_buf_write_char` on each byte of `d` in order, whether or not the data
wraps past the end of the backing array. -/
theorem C26_char_buf_write_bytewise (buf : char_buf) (d : List Nat)
    (hwf : char_buf_wf buf) (hd : d.length ≤ buf.len - buf.buf_len) :
    char_buf_write buf (data_of d) d.length = char_buf_write_chars buf d := by
  obtain ⟨h1, h2, h3⟩ := char_buf_write_fields buf (data_of d) d.length hwf
  obtain ⟨g1, g2, g3⟩ := char_buf_write_chars_fields d buf
  apply char_buf_eq
  · rw [char_buf_write_buffer_eq buf (data_of d) d.length hwf hd,
      char_buf_write_chars_buffer d buf hwf hd]
  · rw [h1, g1]
  · rw [h2, g2]
  · rw [h3, g3]

/-- C26 on the wrapping buffer of capacity 4: the bytes 1, 2 go to the positions
3 and 0. -/
theorem C26_char_buf_write_bytewise_witness :
    char_buf_wf wrap_buf ∧ [1, 2].length ≤ wrap_buf.len - wrap_buf.buf_len ∧
    char_buf_write wrap_buf (data_of [1, 2]) [1, 2].length =
      char_buf_write_chars wrap_buf [1, 2] ∧
    (List.range 4).map (char_buf_write_chars wrap_buf [1, 2]).buffer = [2, 0, 9, 1] :=
  ⟨⟨by decide, by decide, by decide⟩, by decide,
   C26_char_buf_write_bytewise wrap_buf [1, 2] ⟨by decide, by decide, by decide⟩ (by decide),
   by decide⟩

/-! ## Regularity of the extended-prefix table -/

set_option maxRecDepth 100000 in
/-- C27 fails on the code at four entries: the extended-prefix table follows the
regular pattern (operand class none, operation selected by `b >> 3`, register
by `b & 7`) everywhere but at 0x47, 0x57, 0x67 and 0x77, where the table has
"BIT 1, A", "BIT 3, A", "BIT 5, A" and "BIT 7, A" for the bits 0, 2, 4 and 6. -/
theorem C27_cb_table_irregular_entries :
    opcode_cb_decode_format_str 0x47 = OP_FORM_NONE ("BIT 1, A") ∧
    cb_template_spec 0x47 = "BIT 0, A" ∧
    opcode_cb_decode_format_str 0x47 ≠ OP_FORM_NONE (cb_template_spec 0x47) ∧
    cb_irregular = [0x47, 0x57, 0x67, 0x77] := by
  refine ⟨rfl, rfl, ?_, rfl⟩
  decide

end Gbemuc
